import Mathlib

/-!
# Client game-session state machine

A shallow embedding of the session logic of the game client:

* `src/frontend/src/App.jsx`: the event reducer `handleWebSocketMessage`, the
  snapshot pull `loadGameState` and the branch selection of `App`'s render;
* `src/frontend/src/components/GamePhase1.jsx`, `GamePhase2.jsx`,
  `GamePhase3.jsx`: the state-sync effect of each phase component and the
  branch its render takes.

JavaScript values are modelled by `JVal`; a plain object is an association list
of own properties in insertion order. A view is identified with the `return`
branch that the render reaches; the markup inside a branch is not modelled.
-/

namespace GameClient

/-! ## JavaScript values -/

/-- A JavaScript value as it can reach the session: what `JSON.parse` yields
(null, booleans, numbers, strings, arrays, plain objects) plus `undefined`, the
value of an absent property. Numbers carry their numeric value; the code only
tests them for truthiness and strict equality with small integer constants, so
`-0` is identified with `0` and `NaN`, which `JSON.parse` never yields, is not
represented. -/
inductive JVal where
  | undefined : JVal
  | null : JVal
  | bool (b : Bool) : JVal
  | num (q : ℚ) : JVal
  | str (s : String) : JVal
  | arr (xs : List JVal) : JVal
  | obj (kvs : List (String × JVal)) : JVal

/-- A plain object: its own properties, in insertion order. -/
abbrev Obj := List (String × JVal)

/-- Reading `o[k]` on a plain object: the value of the property, `undefined`
when the object has no such property. -/
def Obj.get : Obj → String → JVal
  | [], _ => JVal.undefined
  | (k', v) :: rest, k => if k' = k then v else Obj.get rest k

/-- The object literal step `{ ...o, k: v }`: an existing property keeps its
position and takes the new value, a new property is appended. -/
def Obj.set : Obj → String → JVal → Obj
  | [], k, v => [(k, v)]
  | (k', v') :: rest, k, v => if k' = k then (k, v) :: rest else (k', v') :: Obj.set rest k v

/-- JavaScript truthiness (`!!v`). -/
def JVal.truthy : JVal → Bool
  | JVal.undefined => false
  | JVal.null => false
  | JVal.bool b => b
  | JVal.num q => decide (q ≠ 0)
  | JVal.str s => decide (s ≠ "")
  | JVal.arr _ => true
  | JVal.obj _ => true

/-- The expression `a || b`. -/
def JVal.or (a b : JVal) : JVal := if a.truthy then a else b

/-- The expression `a ?? b`. -/
def JVal.nullish (a b : JVal) : JVal :=
  match a with
  | JVal.undefined => b
  | JVal.null => b
  | _ => a

/-- Property read `v.k` on a value that is neither `null` nor `undefined`:
own property of a plain object; the property names read by this program
(`type`, `status`, `phase`, ...) do not exist on primitives or arrays. -/
def JVal.prop : JVal → String → JVal
  | JVal.obj o, k => Obj.get o k
  | _, _ => JVal.undefined

/-- The test `v === 'lit'` against a string literal. -/
def JVal.isStr : JVal → String → Bool
  | JVal.str s, lit => decide (s = lit)
  | _, _ => false

/-- The test `v === n` against a numeric literal. -/
def JVal.isNum : JVal → ℚ → Bool
  | JVal.num q, n => decide (q = n)
  | _, _ => false

/-- Strict equality `a === b`. Primitives compare by value. Two objects or
arrays compare by reference, which the value model does not carry: the result
`false` is exact wherever this program applies `===` to two non-literals,
because it then compares the locally stored dismissed phase with `phase` only
after `phase` was found to be a number. -/
def JVal.strictEq : JVal → JVal → Bool
  | JVal.undefined, JVal.undefined => true
  | JVal.null, JVal.null => true
  | JVal.bool a, JVal.bool b => decide (a = b)
  | JVal.num a, JVal.num b => decide (a = b)
  | JVal.str a, JVal.str b => decide (a = b)
  | _, _ => false

/-! ## Session state and the event reducer (`App.jsx`) -/

/-- The `gameState` of `App`: `null` (`none`) until a snapshot or an event
creates the object. -/
abbrev GameState := Option Obj

/-- The spread `...prev` inside an object literal: nothing for `null`. -/
def spread : GameState → Obj
  | none => []
  | some o => o

/-- The read `gameState?.k`. -/
def GameState.field : GameState → String → JVal
  | none, _ => JVal.undefined
  | some o, k => Obj.get o k

/-- The spread `...(message.players && { players: message.players })` applied
on top of `o`: a truthy `players` is written, a falsy one spreads nothing. -/
def spreadPlayers (o : Obj) (message : JVal) : Obj :=
  if (message.prop "players").truthy then Obj.set o "players" (message.prop "players") else o

/-- The function `handleWebSocketMessage` of `App.jsx`, as the update it applies to
`gameState` (each branch is a functional update on the current state).
Destructuring `type` from a `null` message throws before any update; the
caller `ws.onmessage` catches it, so the state is unchanged. -/
def handleWebSocketMessage (prev : GameState) (message : JVal) : GameState :=
  match message with
  | JVal.null => prev
  | JVal.undefined => prev
  | _ =>
    let type := message.prop "type"
    if type.isStr "game_started" then
      some (Obj.set (Obj.set (Obj.set (spread prev) "status" (JVal.str "playing"))
        "current_round" (message.prop "current_round")) "phase" (message.prop "phase"))
    else if type.isStr "round_result" then
      some (Obj.set (Obj.set (spread prev) "round_result" message) "voting_phase" (JVal.bool false))
    else if type.isStr "next_round" then
      some (spreadPlayers
        (Obj.set (Obj.set (Obj.set (Obj.set (Obj.set (Obj.set (spread prev)
          "current_round" (message.prop "current_round"))
          "phase" (message.prop "phase"))
          "round_result" JVal.null)
          "broadcast" JVal.null)
          "phase2_broadcasts" JVal.null)
          "voting_phase" (JVal.bool false))
        message)
    else if type.isStr "phase2_broadcasts" then
      some (Obj.set (spread prev) "phase2_broadcasts" message)
    else if type.isStr "subsidy_applied" then
      some (Obj.set (spread prev) "broadcast" message)
    else if type.isStr "subsidy_caught" then
      some (Obj.set (spread prev) "broadcast" message)
    else if type.isStr "vote_result" then
      some (Obj.set (spread prev) "broadcast" message)
    else if type.isStr "voting_start" then
      some (Obj.set (Obj.set (spread prev) "voting_phase" (JVal.bool true))
        "voting_applicants" ((message.prop "applicants").or (JVal.arr [])))
    else if type.isStr "game_finished" then
      some (Obj.set (spread prev) "status" (JVal.str "finished"))
    else prev

/-- Applying a sequence of inbound messages in arrival order. -/
def applyMessages (prev : GameState) (messages : List JVal) : GameState :=
  messages.foldl handleWebSocketMessage prev

/-- The function `loadGameState` of `App.jsx`, as the update it applies to `gameState`.
`gameFromApi` is the optional argument (`null` by default); `fetchedGame` and
`fetchedPlayers` are the outcomes of the two GET requests (`none` when the
request is rejected). A rejected request, or reading `game.status` on a `null`
game record, throws into the `catch`, which leaves the state as it was. -/
def loadGameState (prev : GameState) (gameFromApi : JVal)
    (fetchedGame fetchedPlayers : Option JVal) : GameState :=
  let game? : Option JVal := if gameFromApi.truthy then some gameFromApi else fetchedGame
  match game?, fetchedPlayers with
  | some game, some players =>
    match game with
    | JVal.null => prev
    | JVal.undefined => prev
    | _ =>
      some [("players", players),
            ("status", game.prop "status"),
            ("current_round", (game.prop "current_round").nullish (JVal.num 0)),
            ("phase", (game.prop "phase").nullish (JVal.num 1))]
  | _, _ => prev

/-! ## Phase components: local state, sync effect, render branch -/

/-- The branch a phase component renders. -/
inductive PhaseView where
  | RoundResult (roundResult : JVal) : PhaseView
  | VotingPrompt (votingApplicants : JVal) : PhaseView
  | VotingWait : PhaseView
  | ChoiceSubmission : PhaseView
  | WaitingForOthers : PhaseView

namespace GamePhase1

/-- Local state of `GamePhase1` that its effects on `gameState` and its render
branches use (`currentPlayer` only feeds the markup and is left out). -/
structure State where
  selectedChoice : JVal
  submitted : Bool
  roundResult : JVal

/-- The `useState` initial values. -/
def init : State := { selectedChoice := JVal.null, submitted := false, roundResult := JVal.null }

/-- The effect on `[gameState]` (GamePhase1.jsx lines 18-24). -/
def sync (s : State) (gameState : GameState) : State :=
  let s1 := { s with roundResult := (gameState.field "round_result").nullish JVal.null }
  if (gameState.field "round_result").truthy then
    { s1 with submitted := false, selectedChoice := JVal.null }
  else s1

/-- The render branch (GamePhase1.jsx lines 36-127). -/
def render (s : State) : PhaseView :=
  if s.roundResult.truthy then PhaseView.RoundResult s.roundResult
  else if !s.submitted then PhaseView.ChoiceSubmission
  else PhaseView.WaitingForOthers

end GamePhase1

namespace GamePhase2

/-- Local state of `GamePhase2` (without the markup-only `currentPlayer`). -/
structure State where
  selectedChoice : JVal
  applySubsidy : Bool
  submitted : Bool
  roundResult : JVal
  phase2Broadcasts : JVal
  readyClicked : Bool

/-- The `useState` initial values. -/
def init : State :=
  { selectedChoice := JVal.null, applySubsidy := false, submitted := false,
    roundResult := JVal.null, phase2Broadcasts := JVal.null, readyClicked := false }

/-- The effect on `[gameState]` (GamePhase2.jsx lines 21-30). -/
def sync (s : State) (gameState : GameState) : State :=
  let s1 := { s with
    roundResult := (gameState.field "round_result").nullish JVal.null,
    phase2Broadcasts := (gameState.field "phase2_broadcasts").nullish JVal.null }
  if (gameState.field "round_result").truthy then
    { s1 with submitted := false, selectedChoice := JVal.null, applySubsidy := false,
              readyClicked := false }
  else s1

/-- The render branch of `GamePhase2`. -/
def render (s : State) : PhaseView :=
  if s.roundResult.truthy then PhaseView.RoundResult s.roundResult
  else if !s.submitted then PhaseView.ChoiceSubmission
  else PhaseView.WaitingForOthers

end GamePhase2

namespace GamePhase3

/-- Local state of `GamePhase3` (without the markup-only `currentPlayer`). -/
structure State where
  selectedChoice : JVal
  applySubsidy : Bool
  submitted : Bool
  roundResult : JVal
  broadcast : JVal
  votingPhase : Bool
  votingApplicants : JVal
  selectedVote : JVal
  voteSubmitted : Bool
  readyClicked : Bool

/-- The `useState` initial values. -/
def init : State :=
  { selectedChoice := JVal.null, applySubsidy := false, submitted := false,
    roundResult := JVal.null, broadcast := JVal.null, votingPhase := false,
    votingApplicants := JVal.arr [], selectedVote := JVal.null, voteSubmitted := false,
    readyClicked := false }

/-- The effect on `[gameState]` (GamePhase3.jsx lines 25-42); the three `if`
blocks run one after the other, a later setter overriding an earlier one. -/
def sync (s : State) (gameState : GameState) : State :=
  let s1 := { s with roundResult := (gameState.field "round_result").nullish JVal.null }
  let s2 :=
    if (gameState.field "round_result").truthy then
      { s1 with submitted := false, selectedChoice := JVal.null, applySubsidy := false,
                votingPhase := false, voteSubmitted := false, readyClicked := false }
    else s1
  let s3 :=
    if (gameState.field "broadcast").truthy then
      { s2 with broadcast := gameState.field "broadcast" }
    else s2
  if (gameState.field "voting_phase").truthy then
    { s3 with votingPhase := true,
              votingApplicants := (gameState.field "voting_applicants").or (JVal.arr []) }
  else s3

/-- The render branch (GamePhase3.jsx lines 73-321): the result branch is
tested first, then the two voting branches, then the choice form. -/
def render (s : State) : PhaseView :=
  if s.roundResult.truthy then PhaseView.RoundResult s.roundResult
  else if s.votingPhase && !s.voteSubmitted then PhaseView.VotingPrompt s.votingApplicants
  else if s.votingPhase && s.voteSubmitted then PhaseView.VotingWait
  else if !s.submitted then PhaseView.ChoiceSubmission
  else PhaseView.WaitingForOthers

end GamePhase3

/-! ## View selection (`App` render) -/

/-- The branch `App` returns. -/
inductive Screen where
  | Login : Screen
  | Questionnaire : Screen
  | Lobby : Screen
  | Results : Screen
  | PhaseIntro (phase : JVal) : Screen
  | GamePhase1 : Screen
  | GamePhase2 : Screen
  | GamePhase3 : Screen
  | Loading : Screen

/-- The value `Object.keys(v).length` for a truthy `v`: own enumerable keys of an
object, indices of an array or of a string, none for a number or a boolean. -/
def objectKeysLength : JVal → Nat
  | JVal.obj o => o.length
  | JVal.arr xs => xs.length
  | JVal.str s => s.length
  | _ => 0

/-- The flag `hasQuestionnaire` of `App`, as the condition `!hasQuestionnaire` reads it. -/
def hasQuestionnaire (user : JVal) : Bool :=
  (user.prop "questionnaire_answers").truthy &&
    decide (objectKeysLength (user.prop "questionnaire_answers") > 0)

/-- The test `isFirstRoundOfPhase` of `App`. -/
def isFirstRoundOfPhase (phase round : JVal) : Bool :=
  (phase.isNum 1 && round.isNum 1) || (phase.isNum 2 && round.isNum 6) ||
    (phase.isNum 3 && round.isNum 11)

/-- The render of `App` (App.jsx lines 169-250): which component it returns.
`user`, `game`, `player` are `null` or the stored record. -/
def App.render (user game player : JVal) (gameState : GameState)
    (phaseIntroDismissed : JVal) : Screen :=
  if !user.truthy then Screen.Login
  else if !hasQuestionnaire user then Screen.Questionnaire
  else
    let showLobby := !game.truthy || !player.truthy ||
      (gameState.field "status").isStr "waiting" || gameState.isNone
    if showLobby then Screen.Lobby
    else if (gameState.field "status").isStr "finished" then Screen.Results
    else if (gameState.field "status").isStr "playing" then
      let phase := (gameState.field "phase").or (JVal.num 1)
      let round := (gameState.field "current_round").or (JVal.num 1)
      let showPhaseIntro := isFirstRoundOfPhase phase round && !(phaseIntroDismissed.strictEq phase)
      if showPhaseIntro then Screen.PhaseIntro phase
      else if phase.isNum 1 then Screen.GamePhase1
      else if phase.isNum 2 then Screen.GamePhase2
      else if phase.isNum 3 then Screen.GamePhase3
      else Screen.Loading
    else Screen.Loading

/-- The view the player sees. -/
inductive View where
  | Login : View
  | Questionnaire : View
  | Lobby : View
  | Results : View
  | PhaseIntro (phase : JVal) : View
  | GamePhase1 (v : PhaseView) : View
  | GamePhase2 (v : PhaseView) : View
  | GamePhase3 (v : PhaseView) : View
  | Loading : View

/-- The local, non-authoritative flags: the dismissed phase intro held by `App`
and the local state of the phase components. -/
structure LocalUi where
  phaseIntroDismissed : JVal
  phase1 : GamePhase1.State
  phase2 : GamePhase2.State
  phase3 : GamePhase3.State

/-- The view selector: the branch of `App`, and inside a phase component the
branch that component renders from its local state. -/
def selectView (user game player : JVal) (gameState : GameState) (ui : LocalUi) : View :=
  match App.render user game player gameState ui.phaseIntroDismissed with
  | Screen.Login => View.Login
  | Screen.Questionnaire => View.Questionnaire
  | Screen.Lobby => View.Lobby
  | Screen.Results => View.Results
  | Screen.PhaseIntro phase => View.PhaseIntro phase
  | Screen.GamePhase1 => View.GamePhase1 (GamePhase1.render ui.phase1)
  | Screen.GamePhase2 => View.GamePhase2 (GamePhase2.render ui.phase2)
  | Screen.GamePhase3 => View.GamePhase3 (GamePhase3.render ui.phase3)
  | Screen.Loading => View.Loading

/-! ## Event delivery to a mounted phase component -/

/-- Delivery of a recognised event while `GamePhase1` is mounted: the reducer
replaces `gameState` by a new object, then the `[gameState]` effect of the
component runs on it. -/
def GamePhase1.deliver (p : GameState × GamePhase1.State) (message : JVal) :
    GameState × GamePhase1.State :=
  (handleWebSocketMessage p.1 message,
   GamePhase1.sync p.2 (handleWebSocketMessage p.1 message))

/-- Delivery of a recognised event while `GamePhase3` is mounted: the reducer
replaces `gameState` by a new object, then the `[gameState]` effect of the
component runs on it. -/
def GamePhase3.deliver (p : GameState × GamePhase3.State) (message : JVal) :
    GameState × GamePhase3.State :=
  (handleWebSocketMessage p.1 message,
   GamePhase3.sync p.2 (handleWebSocketMessage p.1 message))

/-! ## Sample records -/

/-- A logged-in user who has answered the questionnaire. -/
def demoUser : JVal :=
  JVal.obj [("id", JVal.num 1), ("username", JVal.str "ann"),
            ("questionnaire_answers", JVal.obj [("q1", JVal.str "a")])]

/-- A joined game record. -/
def demoGame : JVal :=
  JVal.obj [("id", JVal.num 5), ("game_code", JVal.str "ABC123"), ("status", JVal.str "playing")]

/-- The player record `App` stores on create or join. -/
def demoPlayer : JVal := JVal.obj [("id", JVal.num 7)]

/-- A playing session at the given phase and round, as a snapshot leaves it. -/
def demoSession (phase round : ℚ) : Obj :=
  [("players", JVal.arr []), ("status", JVal.str "playing"),
   ("current_round", JVal.num round), ("phase", JVal.num phase)]

/-- Local flags with the intro of `dismissed` closed and freshly mounted components. -/
def demoUi (dismissed : JVal) : LocalUi :=
  { phaseIntroDismissed := dismissed, phase1 := GamePhase1.init, phase2 := GamePhase2.init,
    phase3 := GamePhase3.init }

/-- The `round_result` event of a phase-3 round 11. -/
def demoResult11 : JVal :=
  JVal.obj [("type", JVal.str "round_result"), ("phase", JVal.num 3),
            ("round_number", JVal.num 11), ("nt_after", JVal.num 20),
            ("env_after", JVal.num 1), ("env_change", JVal.num 1),
            ("round_nt_earned", JVal.num 3)]

/-- The applicant `{player_id: 7, username: "X"}`. -/
def demoApplicant : JVal := JVal.obj [("player_id", JVal.num 7), ("username", JVal.str "X")]

/-- The event `voting_start{applicants: [{player_id: 7, username: "X"}]}`. -/
def demoVotingStart : JVal :=
  JVal.obj [("type", JVal.str "voting_start"), ("applicants", JVal.arr [demoApplicant])]

/-- The event `round_result{phase:1, round_number:1, nt_after:13, env_after:0.5,
env_change:0.5, round_nt_earned:3}`. -/
def demoResult1 : JVal :=
  JVal.obj [("type", JVal.str "round_result"), ("phase", JVal.num 1),
            ("round_number", JVal.num 1), ("nt_after", JVal.num 13),
            ("env_after", JVal.num (1 / 2)), ("env_change", JVal.num (1 / 2)),
            ("round_nt_earned", JVal.num 3)]

/-- The event `next_round{current_round: 2, phase: 1}`. -/
def demoNextRound2 : JVal :=
  JVal.obj [("type", JVal.str "next_round"), ("current_round", JVal.num 2),
            ("phase", JVal.num 1)]

/-- The event `phase2_broadcasts{applicants: [], caught_players: []}`. -/
def demoPhase2Broadcasts : JVal :=
  JVal.obj [("type", JVal.str "phase2_broadcasts"), ("applicants", JVal.arr []),
            ("caught_players", JVal.arr [])]

/-- A `subsidy_applied` event. -/
def demoSubsidyApplied : JVal :=
  JVal.obj [("type", JVal.str "subsidy_applied"), ("message", JVal.str "applied")]

/-- A `vote_result` event. -/
def demoVoteResult : JVal :=
  JVal.obj [("type", JVal.str "vote_result"), ("message", JVal.str "voted"),
            ("caught", JVal.bool true)]

/-- The event `game_started{current_round: 1, phase: 1}`. -/
def demoGameStarted : JVal :=
  JVal.obj [("type", JVal.str "game_started"), ("current_round", JVal.num 1),
            ("phase", JVal.num 1)]

/-- A session in the middle of a phase-3 round: a result, a broadcast and a vote are known. -/
def demoBusySession : Obj :=
  [("players", JVal.arr [demoPlayer]), ("status", JVal.str "playing"),
   ("current_round", JVal.num 11), ("phase", JVal.num 3),
   ("round_result", demoResult11), ("broadcast", demoVoteResult),
   ("voting_phase", JVal.bool true), ("voting_applicants", JVal.arr [demoApplicant])]

/-- A game record that carries a status only. -/
def demoWaitingGame : JVal := JVal.obj [("id", JVal.num 5), ("status", JVal.str "waiting")]

/-! ## Lobby (`Lobby.jsx`): roster dedup and room-code resolution -/

/-- The test `v != null` (loose): false exactly for `null` and `undefined`. -/
def JVal.notNullish : JVal → Bool
  | JVal.undefined => false
  | JVal.null => false
  | _ => true

/-- The dedup key of `uniquePlayers` for a record `p` that is neither `null` nor
`undefined`: the template literal `u${p.user_id}` when `p.user_id != null`,
else `p${p.id}`. The string conversion inside a template literal is a language
built-in; it is the parameter `stringOf`. -/
def playerKey (stringOf : JVal → String) (p : JVal) : String :=
  if (p.prop "user_id").notNullish then "u" ++ stringOf (p.prop "user_id")
  else "p" ++ stringOf (p.prop "id")

/-- The `filter` callback loop of `uniquePlayers`, from a given content of the
`seen` set. Reading `p.user_id` on a `null` or `undefined` element throws
(`none`). -/
def uniquePlayersFrom (stringOf : JVal → String) : List String → List JVal → Option (List JVal)
  | _, [] => some []
  | seen, p :: rest =>
    if p.notNullish then
      if playerKey stringOf p ∈ seen then uniquePlayersFrom stringOf seen rest
      else (uniquePlayersFrom stringOf (playerKey stringOf p :: seen) rest).map (fun r => p :: r)
    else none

/-- The memo `uniquePlayers` of `Lobby` (Lobby.jsx lines 9-17) on the array `players`. -/
def uniquePlayers (stringOf : JVal → String) (players : List JVal) : Option (List JVal) :=
  uniquePlayersFrom stringOf [] players

/-- The string built-ins that `handleJoinByCode` calls, as parameters:
`trim` is `s.trim()`, `parseInt` is `parseInt(s, 10)` with `none` for a result
that is not a finite number (`NaN`, or the infinite value of an overlong digit
string, for which both `!isNaN(n) && String(n) === s` is false),
`numberToString` is `String(n)`, `toUpperCase` is `s.toUpperCase()`. -/
structure StringOps where
  trim : String → String
  parseInt : String → Option ℚ
  numberToString : ℚ → String
  toUpperCase : String → String

/-- What `handleJoinByCode` does to the outside, in order. -/
inductive JoinEffect where
  | alert : JoinEffect
  | getByCode (code : String) : JoinEffect
  | onJoinGame (gameId : JVal) : JoinEffect

/-- The `else` branch of `handleJoinByCode`: the request
`GET /games/by-code/<encodeURIComponent(upper)>`, whose outcome is
`byCode upper` (`none` when rejected), then `onJoinGame(res.data.id)`. A
rejected request, or a `null` body, throws into the `catch`, which alerts.
A `String` holds no lone surrogate, so `encodeURIComponent` returns. -/
def joinByCodeLookup (byCode : String → Option JVal) (upper : String) : List JoinEffect :=
  match byCode upper with
  | none => [JoinEffect.getByCode upper, JoinEffect.alert]
  | some JVal.null => [JoinEffect.getByCode upper, JoinEffect.alert]
  | some JVal.undefined => [JoinEffect.getByCode upper, JoinEffect.alert]
  | some data => [JoinEffect.getByCode upper, JoinEffect.onJoinGame (data.prop "id")]

/-- The handler `handleJoinByCode` of `Lobby` (Lobby.jsx lines 38-58) on the text
`gameCode` of the input field. -/
def handleJoinByCode (ops : StringOps) (byCode : String → Option JVal) (gameCode : String) :
    List JoinEffect :=
  let code := ops.trim gameCode
  if code = "" then [JoinEffect.alert]
  else
    match ops.parseInt code with
    | some asNumber =>
      if ops.numberToString asNumber = code then [JoinEffect.onJoinGame (JVal.num asNumber)]
      else joinByCodeLookup byCode (ops.toUpperCase code)
    | none => joinByCodeLookup byCode (ops.toUpperCase code)

/-! ## Connection (`services/websocket.js`) -/

/-- A `WebSocket` object, as far as this program reads it. -/
structure Channel where
  readyState : Nat

/-- The constant `WebSocket.OPEN`. -/
def WebSocket.OPEN : Nat := 1

/-- What a send attempt does to the outside. -/
inductive WsEffect where
  | send (frame : Obj) : WsEffect
  | logError : WsEffect

/-- The spread `...data` on top of `base` in an object literal: the own
properties of `data`, in order, each written over `base`. -/
def Obj.assign (base data : Obj) : Obj :=
  data.foldl (fun acc kv => Obj.set acc kv.1 kv.2) base

/-- The function `sendMessage` of `websocket.js`; `ws` is `null` (`none`) or the socket.
A frame is the object handed to `JSON.stringify`. -/
def sendMessage (ws : Option Channel) (type : String) (data : Obj) : List WsEffect :=
  match ws with
  | some channel =>
    if channel.readyState = WebSocket.OPEN then
      [WsEffect.send (Obj.assign [("type", JVal.str type)] data)]
    else [WsEffect.logError]
  | none => [WsEffect.logError]

/-- What the `onmessage` handler of a connection does, in order. -/
inductive FrameEffect where
  | callback (message : JVal) : FrameEffect
  | logError : FrameEffect

/-- Outcome of running a handler: what it did and whether an exception left it. -/
structure HandlerRun where
  effects : List FrameEffect
  threw : Bool

/-- The `try` block of `ws.onmessage` (websocket.js lines 21-23): `JSON.parse`
is the parameter `parse` (`none` when it throws), then the registered callback
runs on the parsed value; `callbackThrows` tells whether that call throws. -/
def onmessageTry (parse : String → Option JVal) (callbackThrows : JVal → Bool)
    (data : String) : HandlerRun :=
  match parse data with
  | none => { effects := [], threw := true }
  | some message => { effects := [FrameEffect.callback message], threw := callbackThrows message }

/-- The handler `ws.onmessage` of `useWebSocket` (websocket.js lines 20-27): the
`catch` clause logs whatever the `try` block throws. -/
def onmessage (parse : String → Option JVal) (callbackThrows : JVal → Bool)
    (data : String) : HandlerRun :=
  let run := onmessageTry parse callbackThrows data
  if run.threw then { effects := run.effects ++ [FrameEffect.logError], threw := false }
  else run

/-- The session state after an inbound frame: `App` registers
`handleWebSocketMessage` as the callback of the connection. -/
def receiveFrame (parse : String → Option JVal) (prev : GameState) (data : String) : GameState :=
  match parse data with
  | none => prev
  | some message => handleWebSocketMessage prev message

/-! ## Player actions in the phase components -/

/-- The handler `handleSubmit` of `GamePhase1` (GamePhase1.jsx lines 26-34). -/
def GamePhase1.handleSubmit (s : GamePhase1.State) (ws : Option Channel) :
    GamePhase1.State × List WsEffect :=
  if s.selectedChoice.truthy && ws.isSome then
    ({ s with submitted := true },
     sendMessage ws "submit_choice"
       [("choice", s.selectedChoice), ("apply_subsidy", JVal.bool false)])
  else (s, [])

/-- The handler `handleSubmit` of `GamePhase2` (GamePhase2.jsx lines 32-40). -/
def GamePhase2.handleSubmit (s : GamePhase2.State) (ws : Option Channel) :
    GamePhase2.State × List WsEffect :=
  if s.selectedChoice.truthy && ws.isSome then
    ({ s with submitted := true },
     sendMessage ws "submit_choice"
       [("choice", s.selectedChoice), ("apply_subsidy", JVal.bool s.applySubsidy)])
  else (s, [])

/-- The handler `handleReadyNextRound` of `GamePhase2` (GamePhase2.jsx lines 42-47). -/
def GamePhase2.handleReadyNextRound (s : GamePhase2.State) (ws : Option Channel) :
    GamePhase2.State × List WsEffect :=
  if ws.isSome then
    ({ s with readyClicked := true }, sendMessage ws "ready_for_next_round" [])
  else (s, [])

/-- The handler `handleSubmit` of `GamePhase3` (GamePhase3.jsx lines 44-52). -/
def GamePhase3.handleSubmit (s : GamePhase3.State) (ws : Option Channel) :
    GamePhase3.State × List WsEffect :=
  if s.selectedChoice.truthy && ws.isSome then
    ({ s with submitted := true },
     sendMessage ws "submit_choice"
       [("choice", s.selectedChoice), ("apply_subsidy", JVal.bool s.applySubsidy)])
  else (s, [])

/-- The handler `handleVote` of `GamePhase3` (GamePhase3.jsx lines 54-62);
`overrideTargetId` is `undefined` when the handler is called without argument. -/
def GamePhase3.handleVote (s : GamePhase3.State) (ws : Option Channel)
    (overrideTargetId : JVal) : GamePhase3.State × List WsEffect :=
  let tid := match overrideTargetId with
    | JVal.undefined => s.selectedVote
    | _ => overrideTargetId
  if ws.isSome && (tid.isNum 0 || tid.truthy) then
    ({ s with voteSubmitted := true },
     sendMessage ws "submit_vote" [("target_id", if tid.isNum 0 then JVal.num 0 else tid)])
  else (s, [])

/-- The handler `handleReadyNextRound` of `GamePhase3` (GamePhase3.jsx lines 64-69). -/
def GamePhase3.handleReadyNextRound (s : GamePhase3.State) (ws : Option Channel) :
    GamePhase3.State × List WsEffect :=
  if ws.isSome then
    ({ s with readyClicked := true }, sendMessage ws "ready_for_next_round" [])
  else (s, [])

/-! ## Phase and round along a sequence of events -/

/-- Whether a message is one of the two kinds whose reducer branch writes
`phase` and `current_round` (`game_started`, `next_round`). -/
def writesPhaseRound (message : JVal) : Bool :=
  (message.prop "type").isStr "game_started" || (message.prop "type").isStr "next_round"

/-- Whether the `game_started` and `next_round` events of a sequence carry, one
after the other, a numeric phase in {1,2,3} and a phase and a round that are
not below the previous ones, starting from phase `p` and round `r`. -/
def payloadsMonotone : ℚ → ℚ → List JVal → Bool
  | _, _, [] => true
  | p, r, m :: rest =>
    if writesPhaseRound m then
      match m.prop "phase", m.prop "current_round" with
      | JVal.num p', JVal.num r' =>
        (decide (p' = 1) || decide (p' = 2) || decide (p' = 3)) && decide (p ≤ p') &&
          decide (r ≤ r') && payloadsMonotone p' r' rest
      | _, _ => false
    else payloadsMonotone p r rest

/-- The event `next_round{current_round: 1, phase: 1}`, a step backwards for a
session in phase 3. -/
def demoNextRoundBack : JVal :=
  JVal.obj [("type", JVal.str "next_round"), ("current_round", JVal.num 1),
            ("phase", JVal.num 1)]

/-- The event `next_round{current_round: 16, phase: 4}`. -/
def demoNextRoundPhase4 : JVal :=
  JVal.obj [("type", JVal.str "next_round"), ("current_round", JVal.num 16),
            ("phase", JVal.num 4)]

/-- A `JSON.parse` for the samples: it knows one frame text. -/
def demoParse (data : String) : Option JVal :=
  if data = "\x7b\"type\":\"game_finished\"\x7d" then
    some (JVal.obj [("type", JVal.str "game_finished")])
  else none

/-! ## Sample inputs for the lobby and the connection -/

/-- A string conversion for the samples: integers in decimal, strings as they are. -/
def demoStringOf : JVal → String
  | JVal.num q => toString q.num
  | JVal.str s => s
  | _ => "undefined"

/-- A roster in which the user 10 appears twice (players 1 and 2), followed by
a player without `user_id`. -/
def demoRoster : List JVal :=
  [JVal.obj [("id", JVal.num 1), ("user_id", JVal.num 10), ("username", JVal.str "ann")],
   JVal.obj [("id", JVal.num 2), ("user_id", JVal.num 10), ("username", JVal.str "ann")],
   JVal.obj [("id", JVal.num 3), ("username", JVal.str "bob")]]

/-- The event `next_round{current_round: 12, phase: 3, players: demoRoster}`. -/
def demoNextRoundWithRoster : JVal :=
  JVal.obj [("type", JVal.str "next_round"), ("current_round", JVal.num 12),
            ("phase", JVal.num 3), ("players", JVal.arr demoRoster)]

/-- String built-ins for the samples: blanks trimmed, a run of decimal digits
parsed, integers rendered in decimal, letters upper-cased. -/
def demoOps : StringOps :=
  { trim := fun s =>
      String.mk ((s.data.dropWhile (fun c => c = ' ')).reverse.dropWhile (fun c => c = ' ')).reverse
    parseInt := fun s =>
      match s.data.takeWhile Char.isDigit with
      | [] => none
      | ds => some ((ds.foldl (fun n c => 10 * n + (c.toNat - 48)) 0 : Nat) : ℚ)
    numberToString := fun q => toString q.num
    toUpperCase := fun s => String.mk (s.data.map Char.toUpper) }

/-- A by-code directory that knows the room `ABC123` as game 5. -/
def demoByCode (code : String) : Option JVal :=
  if code = "ABC123" then some (JVal.obj [("id", JVal.num 5), ("game_code", JVal.str "ABC123")])
  else none

/-- A socket that is still connecting (`readyState` 0). -/
def demoConnecting : Channel := { readyState := 0 }

/-- A socket that is open (`readyState` 1). -/
def demoOpen : Channel := { readyState := 1 }

/-- A socket that has been closed (`readyState` 3). -/
def demoClosed : Channel := { readyState := 3 }

/-- The event `voting_start{applicants: []}`. -/
def demoVotingStartEmpty : JVal :=
  JVal.obj [("type", JVal.str "voting_start"), ("applicants", JVal.arr [])]

/-! ## Local flags and session entry of `App` -/

/-- The effect of `App` on `[game, gameState?.status]` (App.jsx lines 22-26), as the
value of `phaseIntroDismissed` it leaves. -/
def App.phaseIntroResetEffect (game : JVal) (gameState : GameState)
    (phaseIntroDismissed : JVal) : JVal :=
  if !game.truthy || (gameState.field "status").isStr "finished" then JVal.null
  else phaseIntroDismissed

/-- The callback `dismissPhaseIntro` of `App` (App.jsx line 212): the stored value is
the `phase` of the render that built the callback. -/
def App.dismissPhaseIntro (gameState : GameState) : JVal :=
  (gameState.field "phase").or (JVal.num 1)

/-- The state that `handleCreateGame` and `handleJoinGame` write. -/
structure AppData where
  game : JVal
  player : JVal
  gameState : GameState

/-- What the session-entry handlers do to the outside, in order. `getByCode` is
the lookup `GET /games/by-code/<code>` of the Lobby; `uncaught` is an exception
that leaves the handler. -/
inductive RestEffect where
  | alert : RestEffect
  | postCreate (params : Obj) : RestEffect
  | postJoin (gameId : JVal) (params : Obj) : RestEffect
  | getGame (gameId : JVal) : RestEffect
  | getPlayers (gameId : JVal) : RestEffect
  | getByCode (code : String) : RestEffect
  | uncaught : RestEffect

/-- Outcome of evaluating `user?.username?.trim()`. -/
inductive UsernameCheck where
  | missing : UsernameCheck
  | blank : UsernameCheck
  | named (trimmed : String) : UsernameCheck
  | notString : UsernameCheck

/-- The expression `user?.username?.trim()`: `undefined` for an absent user or
username, the trimmed text for a string, a `TypeError` for a username that has
no `trim` method. -/
def checkUsername (ops : StringOps) (user : JVal) : UsernameCheck :=
  match user with
  | JVal.null => UsernameCheck.missing
  | JVal.undefined => UsernameCheck.missing
  | _ =>
    match user.prop "username" with
    | JVal.null => UsernameCheck.missing
    | JVal.undefined => UsernameCheck.missing
    | JVal.str s => if ops.trim s = "" then UsernameCheck.blank else UsernameCheck.named (ops.trim s)
    | _ => UsernameCheck.notString

/-- The request parameters `user.id ? { user_id: user.id } : { username: ... }`. -/
def entryParams (user : JVal) (trimmed : String) : Obj :=
  if (user.prop "id").truthy then [("user_id", user.prop "id")]
  else [("username", JVal.str trimmed)]

/-- The requests `loadGameState` issues: the game record unless it was passed
in, then the roster unless the first request was rejected. -/
def loadGameStateRequests (gameId gameFromApi : JVal) (fetchedGame : Option JVal) :
    List RestEffect :=
  if gameFromApi.truthy then [RestEffect.getPlayers gameId]
  else
    match fetchedGame with
    | none => [RestEffect.getGame gameId]
    | some _ => [RestEffect.getGame gameId, RestEffect.getPlayers gameId]

/-- The handler `handleCreateGame` of `App` (App.jsx lines 95-120). `created` is the
outcome of `POST /games/create` (`none` when rejected), `fetchedGame` and
`fetchedPlayers` the outcomes of the requests of `loadGameState`. -/
def handleCreateGame (ops : StringOps) (user : JVal) (st : AppData)
    (created fetchedGame fetchedPlayers : Option JVal) : AppData × List RestEffect :=
  match checkUsername ops user with
  | UsernameCheck.missing => (st, [RestEffect.alert])
  | UsernameCheck.blank => (st, [RestEffect.alert])
  | UsernameCheck.notString => (st, [RestEffect.uncaught])
  | UsernameCheck.named trimmed =>
    match created with
    | none => (st, [RestEffect.postCreate (entryParams user trimmed), RestEffect.alert])
    | some JVal.null => (st, [RestEffect.postCreate (entryParams user trimmed), RestEffect.alert])
    | some JVal.undefined =>
      (st, [RestEffect.postCreate (entryParams user trimmed), RestEffect.alert])
    | some data =>
      ({ game := JVal.obj [("id", data.prop "id"), ("game_code", data.prop "game_code"),
                           ("creator_id", data.prop "creator_id"), ("status", data.prop "status"),
                           ("current_round", data.prop "current_round"),
                           ("phase", data.prop "phase")],
         player := JVal.obj [("id", data.prop "player_id")],
         gameState := loadGameState st.gameState JVal.null fetchedGame fetchedPlayers },
       RestEffect.postCreate (entryParams user trimmed) ::
         loadGameStateRequests (data.prop "id") JVal.null fetchedGame)

/-- The handler `handleJoinGame` of `App` (App.jsx lines 122-141). `joined` is the
outcome of `POST /games/<gameId>/join`, `gameResponse` that of the following
`GET /games/<gameId>`; `fetchedGame` and `fetchedPlayers` are the outcomes of
the requests of `loadGameState`. The player is stored before the game record
is requested. -/
def handleJoinGame (ops : StringOps) (user : JVal) (st : AppData) (gameId : JVal)
    (joined gameResponse fetchedGame fetchedPlayers : Option JVal) :
    AppData × List RestEffect :=
  match checkUsername ops user with
  | UsernameCheck.missing => (st, [RestEffect.alert])
  | UsernameCheck.blank => (st, [RestEffect.alert])
  | UsernameCheck.notString => (st, [RestEffect.uncaught])
  | UsernameCheck.named trimmed =>
    match joined with
    | none => (st, [RestEffect.postJoin gameId (entryParams user trimmed), RestEffect.alert])
    | some JVal.null =>
      (st, [RestEffect.postJoin gameId (entryParams user trimmed), RestEffect.alert])
    | some JVal.undefined =>
      (st, [RestEffect.postJoin gameId (entryParams user trimmed), RestEffect.alert])
    | some data =>
      match gameResponse with
      | none =>
        ({ st with player := JVal.obj [("id", data.prop "player_id")] },
         [RestEffect.postJoin gameId (entryParams user trimmed), RestEffect.getGame gameId,
          RestEffect.alert])
      | some gameData =>
        ({ game := gameData,
           player := JVal.obj [("id", data.prop "player_id")],
           gameState := loadGameState st.gameState gameData fetchedGame fetchedPlayers },
         RestEffect.postJoin gameId (entryParams user trimmed) :: RestEffect.getGame gameId ::
           loadGameStateRequests gameId gameData fetchedGame)

/-- One step of the join button: an effect of `handleJoinByCode` seen from the
outside. `onJoinGame` is the prop `handleJoinGame` of `App`; it runs inside the
`try` of `handleJoinByCode`, whose `catch` turns an exception into an alert. -/
def joinStep (ops : StringOps) (user : JVal)
    (joined gameResponse fetchedGame fetchedPlayers : Option JVal)
    (st : AppData) : JoinEffect → AppData × List RestEffect
  | JoinEffect.alert => (st, [RestEffect.alert])
  | JoinEffect.getByCode code => (st, [RestEffect.getByCode code])
  | JoinEffect.onJoinGame gameId =>
    ((handleJoinGame ops user st gameId joined gameResponse fetchedGame fetchedPlayers).1,
     (handleJoinGame ops user st gameId joined gameResponse fetchedGame fetchedPlayers).2.map
       (fun e => match e with
         | RestEffect.uncaught => RestEffect.alert
         | other => other))

/-- The effects of `handleJoinByCode` carried out one after the other. -/
def runJoinEffects (ops : StringOps) (user : JVal)
    (joined gameResponse fetchedGame fetchedPlayers : Option JVal) :
    AppData → List JoinEffect → AppData × List RestEffect
  | st, [] => (st, [])
  | st, e :: rest =>
    ((runJoinEffects ops user joined gameResponse fetchedGame fetchedPlayers
        (joinStep ops user joined gameResponse fetchedGame fetchedPlayers st e).1 rest).1,
     (joinStep ops user joined gameResponse fetchedGame fetchedPlayers st e).2 ++
       (runJoinEffects ops user joined gameResponse fetchedGame fetchedPlayers
        (joinStep ops user joined gameResponse fetchedGame fetchedPlayers st e).1 rest).2)

/-- Joining from the Lobby: the click handler `handleJoinByCode` of `Lobby`
with `handleJoinGame` of `App` as its `onJoinGame` (App.jsx line 195), which is
the only way `handleJoinGame` is called. -/
def joinFromLobby (ops : StringOps) (user : JVal) (st : AppData)
    (byCode : String → Option JVal) (gameCode : String)
    (joined gameResponse fetchedGame fetchedPlayers : Option JVal) :
    AppData × List RestEffect :=
  runJoinEffects ops user joined gameResponse fetchedGame fetchedPlayers st
    (handleJoinByCode ops byCode gameCode)

/-- The event `next_round` with the given round and phase. -/
def demoNextRoundAt (round phase : ℚ) : JVal :=
  JVal.obj [("type", JVal.str "next_round"), ("current_round", JVal.num round),
            ("phase", JVal.num phase)]

/-- A user record whose nickname is blank. -/
def demoBlankUser : JVal :=
  JVal.obj [("id", JVal.num 1), ("username", JVal.str "   ")]

/-- The state of `App` before any game is created or joined. -/
def demoNoGame : AppData := { game := JVal.null, player := JVal.null, gameState := none }

/-- The event `next_round{current_round: 6, phase: 1}`: round 6 delivered with phase 1. -/
def demoNextRound6Phase1 : JVal :=
  JVal.obj [("type", JVal.str "next_round"), ("current_round", JVal.num 6),
            ("phase", JVal.num 1)]

/-- The event `next_round{current_round: 12, phase: 3}`. -/
def demoNextRound12 : JVal :=
  JVal.obj [("type", JVal.str "next_round"), ("current_round", JVal.num 12),
            ("phase", JVal.num 3)]

/-- A message of a kind the reducer does not know. -/
def demoUnknownMessage : JVal :=
  JVal.obj [("type", JVal.str "player_joined"), ("players", JVal.arr [])]

/-! ## Basic facts on property reads and writes -/

theorem Obj.get_set (o : Obj) (k k' : String) (v : JVal) :
    Obj.get (Obj.set o k v) k' = if k = k' then v else Obj.get o k' := by
  induction o with
  | nil => simp [Obj.set, Obj.get]
  | cons p rest ih =>
    obtain ⟨a, w⟩ := p
    by_cases hak : a = k
    · subst hak
      by_cases hk : a = k' <;> simp [Obj.set, Obj.get, hk]
    · by_cases ha : a = k'
      · subst ha
        simp [Obj.set, Obj.get, hak, Ne.symm hak]
      · simp [Obj.set, Obj.get, hak, ha, ih]

theorem Obj.get_set_same (o : Obj) (k : String) (v : JVal) :
    Obj.get (Obj.set o k v) k = v := by
  simp [Obj.get_set]

theorem Obj.get_set_ne (o : Obj) (k k' : String) (v : JVal) (h : k' ≠ k) :
    Obj.get (Obj.set o k v) k' = Obj.get o k' := by
  simp [Obj.get_set, Ne.symm h]

theorem GameState.field_spread (prev : GameState) (k : String) :
    Obj.get (spread prev) k = prev.field k := by
  cases prev <;> rfl

theorem JVal.prop_eq_str (message : JVal) (k s : String)
    (h : message.prop k = JVal.str s) : ∃ o, message = JVal.obj o := by
  cases message <;> simp [JVal.prop] at h
  exact ⟨_, rfl⟩

/-! ## The state each recognised event produces -/

theorem handle_game_started (prev : GameState) (message : JVal)
    (h : message.prop "type" = JVal.str "game_started") :
    handleWebSocketMessage prev message =
      some (Obj.set (Obj.set (Obj.set (spread prev) "status" (JVal.str "playing"))
        "current_round" (message.prop "current_round")) "phase" (message.prop "phase")) := by
  obtain ⟨o, rfl⟩ := JVal.prop_eq_str _ _ _ h
  simp [handleWebSocketMessage, h, JVal.isStr]

theorem handle_round_result (prev : GameState) (message : JVal)
    (h : message.prop "type" = JVal.str "round_result") :
    handleWebSocketMessage prev message =
      some (Obj.set (Obj.set (spread prev) "round_result" message)
        "voting_phase" (JVal.bool false)) := by
  obtain ⟨o, rfl⟩ := JVal.prop_eq_str _ _ _ h
  simp [handleWebSocketMessage, h, JVal.isStr]

theorem handle_next_round (prev : GameState) (message : JVal)
    (h : message.prop "type" = JVal.str "next_round") :
    handleWebSocketMessage prev message = some (spreadPlayers
      (Obj.set (Obj.set (Obj.set (Obj.set (Obj.set (Obj.set (spread prev)
        "current_round" (message.prop "current_round"))
        "phase" (message.prop "phase"))
        "round_result" JVal.null)
        "broadcast" JVal.null)
        "phase2_broadcasts" JVal.null)
        "voting_phase" (JVal.bool false))
      message) := by
  obtain ⟨o, rfl⟩ := JVal.prop_eq_str _ _ _ h
  simp [handleWebSocketMessage, h, JVal.isStr]

theorem handle_phase2_broadcasts (prev : GameState) (message : JVal)
    (h : message.prop "type" = JVal.str "phase2_broadcasts") :
    handleWebSocketMessage prev message =
      some (Obj.set (spread prev) "phase2_broadcasts" message) := by
  obtain ⟨o, rfl⟩ := JVal.prop_eq_str _ _ _ h
  simp [handleWebSocketMessage, h, JVal.isStr]

theorem handle_broadcast (prev : GameState) (message : JVal)
    (h : message.prop "type" = JVal.str "subsidy_applied" ∨
         message.prop "type" = JVal.str "subsidy_caught" ∨
         message.prop "type" = JVal.str "vote_result") :
    handleWebSocketMessage prev message = some (Obj.set (spread prev) "broadcast" message) := by
  rcases h with h | h | h <;>
  · obtain ⟨o, rfl⟩ := JVal.prop_eq_str _ _ _ h
    simp [handleWebSocketMessage, h, JVal.isStr]

theorem handle_voting_start (prev : GameState) (message : JVal)
    (h : message.prop "type" = JVal.str "voting_start") :
    handleWebSocketMessage prev message =
      some (Obj.set (Obj.set (spread prev) "voting_phase" (JVal.bool true))
        "voting_applicants" ((message.prop "applicants").or (JVal.arr []))) := by
  obtain ⟨o, rfl⟩ := JVal.prop_eq_str _ _ _ h
  simp [handleWebSocketMessage, h, JVal.isStr]

theorem field_some (o : Obj) (k : String) : GameState.field (some o) k = Obj.get o k := rfl

/-! ## The reducer, event by event -/

/-- C1: for every prior state and every `next_round` event the reducer sets
`current_round` and `phase` from the payload, sets `round_result`, `broadcast`
and `phase2_broadcasts` to `null` and `voting_phase` to `false`; `players` is
the payload's list when the payload carries one and the prior `players` when the
payload has none; every other field keeps its prior value. -/
theorem next_round_effect (prev : GameState) (message : JVal)
    (h : message.prop "type" = JVal.str "next_round") :
    (handleWebSocketMessage prev message).field "current_round" = message.prop "current_round" ∧
    (handleWebSocketMessage prev message).field "phase" = message.prop "phase" ∧
    (handleWebSocketMessage prev message).field "round_result" = JVal.null ∧
    (handleWebSocketMessage prev message).field "broadcast" = JVal.null ∧
    (handleWebSocketMessage prev message).field "phase2_broadcasts" = JVal.null ∧
    (handleWebSocketMessage prev message).field "voting_phase" = JVal.bool false ∧
    (∀ ps, message.prop "players" = JVal.arr ps →
      (handleWebSocketMessage prev message).field "players" = JVal.arr ps) ∧
    (message.prop "players" = JVal.undefined →
      (handleWebSocketMessage prev message).field "players" = prev.field "players") ∧
    (∀ k, k ∉ ["current_round", "phase", "round_result", "broadcast", "phase2_broadcasts",
               "voting_phase", "players"] →
      (handleWebSocketMessage prev message).field k = prev.field k) := by
  rw [handle_next_round prev message h]
  refine ⟨?_, ?_, ?_, ?_, ?_, ?_, ?_, ?_, ?_⟩
  · by_cases hp : (message.prop "players").truthy <;>
      simp [GameState.field, spreadPlayers, hp, Obj.get_set]
  · by_cases hp : (message.prop "players").truthy <;>
      simp [GameState.field, spreadPlayers, hp, Obj.get_set]
  · by_cases hp : (message.prop "players").truthy <;>
      simp [GameState.field, spreadPlayers, hp, Obj.get_set]
  · by_cases hp : (message.prop "players").truthy <;>
      simp [GameState.field, spreadPlayers, hp, Obj.get_set]
  · by_cases hp : (message.prop "players").truthy <;>
      simp [GameState.field, spreadPlayers, hp, Obj.get_set]
  · by_cases hp : (message.prop "players").truthy <;>
      simp [GameState.field, spreadPlayers, hp, Obj.get_set]
  · intro ps hps
    simp [GameState.field, spreadPlayers, hps, JVal.truthy, Obj.get_set]
  · intro hps
    simp [GameState.field, spreadPlayers, hps, JVal.truthy, Obj.get_set, GameState.field_spread]
  · intro k hk
    simp only [List.mem_cons, List.mem_singleton, List.mem_nil_iff, not_or, or_false] at hk
    obtain ⟨h1, h2, h3, h4, h5, h6, h7⟩ := hk
    by_cases hp : (message.prop "players").truthy <;>
      simp [GameState.field, spreadPlayers, hp, Obj.get_set, Ne.symm h1, Ne.symm h2, Ne.symm h3,
        Ne.symm h4, Ne.symm h5, Ne.symm h6, Ne.symm h7, GameState.field_spread]

/-- Witness of `next_round_effect`: `next_round{current_round: 2, phase: 1}`
without a roster, on a session that holds a result, a broadcast and an open vote. -/
theorem next_round_effect_witness :
    demoNextRound2.prop "type" = JVal.str "next_round" ∧
    (handleWebSocketMessage (some demoBusySession) demoNextRound2).field "current_round"
      = JVal.num 2 ∧
    (handleWebSocketMessage (some demoBusySession) demoNextRound2).field "round_result"
      = JVal.null ∧
    (handleWebSocketMessage (some demoBusySession) demoNextRound2).field "voting_phase"
      = JVal.bool false ∧
    (handleWebSocketMessage (some demoBusySession) demoNextRound2).field "players"
      = JVal.arr [demoPlayer] ∧
    (handleWebSocketMessage (some demoBusySession) demoNextRound2).field "status"
      = JVal.str "playing" :=
  have h := next_round_effect (some demoBusySession) demoNextRound2 rfl
  ⟨rfl, h.1, h.2.2.1, h.2.2.2.2.2.1, h.2.2.2.2.2.2.2.1 rfl,
   h.2.2.2.2.2.2.2.2 "status" (by decide)⟩

/-- C2: applying a `phase2_broadcasts` event and then a `subsidy_applied` event
leaves `players`, `status`, `current_round`, `round_result`, `phase`,
`voting_phase`, `voting_applicants` and every further field as they were; only
`phase2_broadcasts` (now the first message) and `broadcast` (now the second)
change. -/
theorem phase2_then_subsidy_preserves (prev : GameState) (m1 m2 : JVal)
    (h1 : m1.prop "type" = JVal.str "phase2_broadcasts")
    (h2 : m2.prop "type" = JVal.str "subsidy_applied") :
    (applyMessages prev [m1, m2]).field "players" = prev.field "players" ∧
    (applyMessages prev [m1, m2]).field "status" = prev.field "status" ∧
    (applyMessages prev [m1, m2]).field "current_round" = prev.field "current_round" ∧
    (applyMessages prev [m1, m2]).field "round_result" = prev.field "round_result" ∧
    (applyMessages prev [m1, m2]).field "phase" = prev.field "phase" ∧
    (applyMessages prev [m1, m2]).field "voting_phase" = prev.field "voting_phase" ∧
    (applyMessages prev [m1, m2]).field "voting_applicants" = prev.field "voting_applicants" ∧
    (∀ k, k ∉ ["phase2_broadcasts", "broadcast"] →
      (applyMessages prev [m1, m2]).field k = prev.field k) ∧
    (applyMessages prev [m1, m2]).field "phase2_broadcasts" = m1 ∧
    (applyMessages prev [m1, m2]).field "broadcast" = m2 := by
  have hstate : applyMessages prev [m1, m2] =
      some (Obj.set (Obj.set (spread prev) "phase2_broadcasts" m1) "broadcast" m2) := by
    simp [applyMessages, handle_phase2_broadcasts prev m1 h1, handle_broadcast _ m2 (Or.inl h2),
      spread]
  have hother : ∀ k, k ∉ ["phase2_broadcasts", "broadcast"] →
      (applyMessages prev [m1, m2]).field k = prev.field k := by
    intro k hk
    simp only [List.mem_cons, List.mem_singleton, List.mem_nil_iff, not_or, or_false] at hk
    rw [hstate]
    simp [field_some, Obj.get_set, Ne.symm hk.1, Ne.symm hk.2, GameState.field_spread]
  refine ⟨hother _ (by decide), hother _ (by decide), hother _ (by decide), hother _ (by decide),
    hother _ (by decide), hother _ (by decide), hother _ (by decide), hother, ?_, ?_⟩
  · rw [hstate]; simp [field_some, Obj.get_set]
  · rw [hstate]; simp [field_some, Obj.get_set]

/-- Witness of `phase2_then_subsidy_preserves` on a session that holds a result. -/
theorem phase2_then_subsidy_preserves_witness :
    demoPhase2Broadcasts.prop "type" = JVal.str "phase2_broadcasts" ∧
    demoSubsidyApplied.prop "type" = JVal.str "subsidy_applied" ∧
    (applyMessages (some demoBusySession) [demoPhase2Broadcasts, demoSubsidyApplied]).field
      "round_result" = demoResult11 ∧
    (applyMessages (some demoBusySession) [demoPhase2Broadcasts, demoSubsidyApplied]).field
      "broadcast" = demoSubsidyApplied :=
  have h := phase2_then_subsidy_preserves (some demoBusySession) demoPhase2Broadcasts
    demoSubsidyApplied rfl rfl
  ⟨rfl, rfl, h.2.2.2.1, h.2.2.2.2.2.2.2.2.2⟩

/-- C3: for every prior state and every `round_result` event the reducer sets
`round_result` to the event payload and `voting_phase` to `false`, and keeps
every other field (players, status, current_round, phase, broadcast,
phase2_broadcasts, voting_applicants, ...) as it was. -/
theorem round_result_effect (prev : GameState) (message : JVal)
    (h : message.prop "type" = JVal.str "round_result") :
    (handleWebSocketMessage prev message).field "round_result" = message ∧
    (handleWebSocketMessage prev message).field "voting_phase" = JVal.bool false ∧
    (∀ k, k ∉ ["round_result", "voting_phase"] →
      (handleWebSocketMessage prev message).field k = prev.field k) := by
  rw [handle_round_result prev message h]
  refine ⟨by simp [field_some, Obj.get_set], by simp [field_some, Obj.get_set], ?_⟩
  intro k hk
  simp only [List.mem_cons, List.mem_singleton, List.mem_nil_iff, not_or, or_false] at hk
  simp [field_some, Obj.get_set, Ne.symm hk.1, Ne.symm hk.2, GameState.field_spread]

/-- Witness of `round_result_effect` on a session with an open vote. -/
theorem round_result_effect_witness :
    demoResult1.prop "type" = JVal.str "round_result" ∧
    (handleWebSocketMessage (some demoBusySession) demoResult1).field "round_result"
      = demoResult1 ∧
    (handleWebSocketMessage (some demoBusySession) demoResult1).field "voting_phase"
      = JVal.bool false ∧
    (handleWebSocketMessage (some demoBusySession) demoResult1).field "broadcast"
      = demoVoteResult :=
  have h := round_result_effect (some demoBusySession) demoResult1 rfl
  ⟨rfl, h.1, h.2.1, h.2.2 "broadcast" (by decide)⟩

/-- C4: for every prior state and every `voting_start` event the reducer sets
`voting_phase` to `true` and `voting_applicants` to the payload's applicants
list, or to the empty list when the payload has no applicants; every other
field, `round_result` in particular, keeps its prior value. -/
theorem voting_start_effect (prev : GameState) (message : JVal)
    (h : message.prop "type" = JVal.str "voting_start") :
    (handleWebSocketMessage prev message).field "voting_phase" = JVal.bool true ∧
    (∀ apps, message.prop "applicants" = JVal.arr apps →
      (handleWebSocketMessage prev message).field "voting_applicants" = JVal.arr apps) ∧
    (message.prop "applicants" = JVal.undefined →
      (handleWebSocketMessage prev message).field "voting_applicants" = JVal.arr []) ∧
    (handleWebSocketMessage prev message).field "round_result" = prev.field "round_result" ∧
    (∀ k, k ∉ ["voting_phase", "voting_applicants"] →
      (handleWebSocketMessage prev message).field k = prev.field k) := by
  rw [handle_voting_start prev message h]
  have hother : ∀ k, k ∉ ["voting_phase", "voting_applicants"] →
      GameState.field (some (Obj.set (Obj.set (spread prev) "voting_phase" (JVal.bool true))
        "voting_applicants" ((message.prop "applicants").or (JVal.arr [])))) k = prev.field k := by
    intro k hk
    simp only [List.mem_cons, List.mem_singleton, List.mem_nil_iff, not_or, or_false] at hk
    simp [field_some, Obj.get_set, Ne.symm hk.1, Ne.symm hk.2, GameState.field_spread]
  refine ⟨by simp [field_some, Obj.get_set], ?_, ?_, hother _ (by decide), hother⟩
  · intro apps happs
    simp [field_some, Obj.get_set, happs, JVal.or, JVal.truthy]
  · intro happs
    simp [field_some, Obj.get_set, happs, JVal.or, JVal.truthy]

/-- Witness of `voting_start_effect`: the applicant list is stored, the known
result stays. -/
theorem voting_start_effect_witness :
    demoVotingStart.prop "type" = JVal.str "voting_start" ∧
    (handleWebSocketMessage (some demoBusySession) demoVotingStart).field "voting_phase"
      = JVal.bool true ∧
    (handleWebSocketMessage (some demoBusySession) demoVotingStart).field "voting_applicants"
      = JVal.arr [demoApplicant] ∧
    (handleWebSocketMessage (some demoBusySession) demoVotingStart).field "round_result"
      = demoResult11 :=
  have h := voting_start_effect (some demoBusySession) demoVotingStart rfl
  ⟨rfl, h.1, h.2.1 [demoApplicant] rfl, h.2.2.2.1⟩

/-- C5: for every prior state and every `game_started` event the reducer sets
`status` to `playing` and `current_round` and `phase` from the payload, and
keeps every other field (players, round_result, broadcast, phase2_broadcasts,
voting_phase, voting_applicants, ...) as it was. -/
theorem game_started_effect (prev : GameState) (message : JVal)
    (h : message.prop "type" = JVal.str "game_started") :
    (handleWebSocketMessage prev message).field "status" = JVal.str "playing" ∧
    (handleWebSocketMessage prev message).field "current_round" = message.prop "current_round" ∧
    (handleWebSocketMessage prev message).field "phase" = message.prop "phase" ∧
    (∀ k, k ∉ ["status", "current_round", "phase"] →
      (handleWebSocketMessage prev message).field k = prev.field k) := by
  rw [handle_game_started prev message h]
  refine ⟨by simp [field_some, Obj.get_set], by simp [field_some, Obj.get_set],
    by simp [field_some, Obj.get_set], ?_⟩
  intro k hk
  simp only [List.mem_cons, List.mem_singleton, List.mem_nil_iff, not_or, or_false] at hk
  simp [field_some, Obj.get_set, Ne.symm hk.1, Ne.symm hk.2.1, Ne.symm hk.2.2,
    GameState.field_spread]

/-- Witness of `game_started_effect` on the state no snapshot has filled yet. -/
theorem game_started_effect_witness :
    demoGameStarted.prop "type" = JVal.str "game_started" ∧
    (handleWebSocketMessage none demoGameStarted).field "status" = JVal.str "playing" ∧
    (handleWebSocketMessage none demoGameStarted).field "current_round" = JVal.num 1 ∧
    (handleWebSocketMessage none demoGameStarted).field "players" = JVal.undefined :=
  have h := game_started_effect none demoGameStarted rfl
  ⟨rfl, h.1, h.2.1, h.2.2.2 "players" (by decide)⟩

/-- C6: broadcast is last-write-wins: for every prior state and every non-empty
sequence of events, each of kind `subsidy_applied`, `subsidy_caught` or
`vote_result`, the state after the whole sequence has `broadcast` equal to the
payload of the last event and every other field equal to its initial value. -/
theorem broadcast_last_write_wins (prev : GameState) (messages : List JVal)
    (hne : messages ≠ [])
    (hkind : ∀ m ∈ messages, m.prop "type" = JVal.str "subsidy_applied" ∨
      m.prop "type" = JVal.str "subsidy_caught" ∨ m.prop "type" = JVal.str "vote_result") :
    (applyMessages prev messages).field "broadcast" = messages.getLast hne ∧
    (∀ k, k ≠ "broadcast" → (applyMessages prev messages).field k = prev.field k) := by
  induction messages generalizing prev with
  | nil => exact absurd rfl hne
  | cons m rest ih =>
    have hm := hkind m (List.mem_cons_self m rest)
    have hfirst : ∀ k, k ≠ "broadcast" →
        (handleWebSocketMessage prev m).field k = prev.field k := by
      intro k hk
      rw [handle_broadcast prev m hm]
      simp [field_some, Obj.get_set, Ne.symm hk, GameState.field_spread]
    cases rest with
    | nil =>
      refine ⟨?_, ?_⟩
      · simp [applyMessages, handle_broadcast prev m hm, field_some, Obj.get_set]
      · intro k hk
        simpa [applyMessages] using hfirst k hk
    | cons m' rest' =>
      have hrest := ih (handleWebSocketMessage prev m) (List.cons_ne_nil m' rest')
        (fun x hx => hkind x (List.mem_cons_of_mem m hx))
      refine ⟨?_, ?_⟩
      · have h1 := hrest.1
        simpa [applyMessages, List.getLast_cons_cons] using h1
      · intro k hk
        have h2 := hrest.2 k hk
        rw [hfirst k hk] at h2
        simpa [applyMessages] using h2

/-- Witness of `broadcast_last_write_wins` on three broadcasts. -/
theorem broadcast_last_write_wins_witness :
    (applyMessages (some demoBusySession)
      [demoSubsidyApplied, demoVoteResult, demoSubsidyApplied]).field "broadcast"
      = demoSubsidyApplied ∧
    (applyMessages (some demoBusySession)
      [demoSubsidyApplied, demoVoteResult, demoSubsidyApplied]).field "round_result"
      = demoResult11 :=
  have h := broadcast_last_write_wins (some demoBusySession)
    [demoSubsidyApplied, demoVoteResult, demoSubsidyApplied] (by simp)
    (by
      intro m hm
      simp only [List.mem_cons, List.mem_singleton, List.mem_nil_iff, or_false] at hm
      rcases hm with rfl | rfl | rfl
      · exact Or.inl rfl
      · exact Or.inr (Or.inr rfl)
      · exact Or.inl rfl)
  ⟨h.1, h.2 "round_result" (by decide)⟩

/-- C7: a successful pull replaces the session state wholesale: whatever the
prior state, the new state holds `players` from the roster request, `status`
from the game record, `current_round` and `phase` from the game record with
defaults 0 and 1 when the record omits them, and no other field, so that
`round_result`, `broadcast`, `phase2_broadcasts`, `voting_phase` and
`voting_applicants` of the prior state are gone. -/
theorem loadGameState_replaces (prev : GameState) (gameFromApi : JVal)
    (fetchedGame fetchedPlayers : Option JVal) (g : Obj) (players : JVal)
    (hgame : (if gameFromApi.truthy then some gameFromApi else fetchedGame) = some (JVal.obj g))
    (hplayers : fetchedPlayers = some players) :
    (loadGameState prev gameFromApi fetchedGame fetchedPlayers).field "players" = players ∧
    (loadGameState prev gameFromApi fetchedGame fetchedPlayers).field "status"
      = Obj.get g "status" ∧
    (loadGameState prev gameFromApi fetchedGame fetchedPlayers).field "current_round"
      = (Obj.get g "current_round").nullish (JVal.num 0) ∧
    (loadGameState prev gameFromApi fetchedGame fetchedPlayers).field "phase"
      = (Obj.get g "phase").nullish (JVal.num 1) ∧
    (Obj.get g "current_round" = JVal.undefined →
      (loadGameState prev gameFromApi fetchedGame fetchedPlayers).field "current_round"
        = JVal.num 0) ∧
    (Obj.get g "phase" = JVal.undefined →
      (loadGameState prev gameFromApi fetchedGame fetchedPlayers).field "phase" = JVal.num 1) ∧
    (∀ k, k ∉ ["players", "status", "current_round", "phase"] →
      (loadGameState prev gameFromApi fetchedGame fetchedPlayers).field k = JVal.undefined) ∧
    (∀ k ∈ ["round_result", "broadcast", "phase2_broadcasts", "voting_phase",
            "voting_applicants"],
      (loadGameState prev gameFromApi fetchedGame fetchedPlayers).field k = JVal.undefined) := by
  have hstate : loadGameState prev gameFromApi fetchedGame fetchedPlayers =
      some [("players", players), ("status", Obj.get g "status"),
            ("current_round", (Obj.get g "current_round").nullish (JVal.num 0)),
            ("phase", (Obj.get g "phase").nullish (JVal.num 1))] := by
    simp only [loadGameState, hgame, hplayers, JVal.prop]
  rw [hstate]
  refine ⟨by simp [field_some, Obj.get], by simp [field_some, Obj.get],
    by simp [field_some, Obj.get], by simp [field_some, Obj.get], ?_, ?_, ?_, ?_⟩
  · intro h0
    simp [field_some, Obj.get, h0, JVal.nullish]
  · intro h0
    simp [field_some, Obj.get, h0, JVal.nullish]
  · intro k hk
    simp only [List.mem_cons, List.mem_singleton, List.mem_nil_iff, not_or, or_false] at hk
    simp [field_some, Obj.get, Ne.symm hk.1, Ne.symm hk.2.1, Ne.symm hk.2.2.1, Ne.symm hk.2.2.2]
  · intro k hk
    simp only [List.mem_cons, List.mem_singleton, List.mem_nil_iff, or_false] at hk
    rcases hk with rfl | rfl | rfl | rfl | rfl <;> simp [field_some, Obj.get]

/-- Witness of `loadGameState_replaces`: a pull of a waiting game whose record
omits round and phase, onto a session that holds a result and an open vote. -/
theorem loadGameState_replaces_witness :
    (loadGameState (some demoBusySession) JVal.null (some demoWaitingGame)
      (some (JVal.arr [demoPlayer]))).field "status" = JVal.str "waiting" ∧
    (loadGameState (some demoBusySession) JVal.null (some demoWaitingGame)
      (some (JVal.arr [demoPlayer]))).field "current_round" = JVal.num 0 ∧
    (loadGameState (some demoBusySession) JVal.null (some demoWaitingGame)
      (some (JVal.arr [demoPlayer]))).field "phase" = JVal.num 1 ∧
    (loadGameState (some demoBusySession) JVal.null (some demoWaitingGame)
      (some (JVal.arr [demoPlayer]))).field "round_result" = JVal.undefined :=
  have h := loadGameState_replaces (some demoBusySession) JVal.null (some demoWaitingGame)
    (some (JVal.arr [demoPlayer]))
    [("id", JVal.num 5), ("status", JVal.str "waiting")] (JVal.arr [demoPlayer]) rfl rfl
  ⟨h.2.1, h.2.2.2.2.1 rfl, h.2.2.2.2.2.1 rfl, h.2.2.2.2.2.2.2 "round_result" (by simp)⟩

/-! ## View selection after events -/

theorem render_playing (user game player : JVal) (o : Obj) (dismissed : JVal)
    (huser : user.truthy = true) (hq : hasQuestionnaire user = true)
    (hgame : game.truthy = true) (hplayer : player.truthy = true)
    (hstatus : Obj.get o "status" = JVal.str "playing") :
    App.render user game player (some o) dismissed =
      if (isFirstRoundOfPhase ((Obj.get o "phase").or (JVal.num 1))
            ((Obj.get o "current_round").or (JVal.num 1)) &&
          !(dismissed.strictEq ((Obj.get o "phase").or (JVal.num 1)))) = true
      then Screen.PhaseIntro ((Obj.get o "phase").or (JVal.num 1))
      else if ((Obj.get o "phase").or (JVal.num 1)).isNum 1 = true then Screen.GamePhase1
      else if ((Obj.get o "phase").or (JVal.num 1)).isNum 2 = true then Screen.GamePhase2
      else if ((Obj.get o "phase").or (JVal.num 1)).isNum 3 = true then Screen.GamePhase3
      else Screen.Loading := by
  simp [App.render, huser, hq, hgame, hplayer, GameState.field, hstatus, JVal.isStr]

theorem phase3_sync_roundResult (s : GamePhase3.State) (gs : GameState) :
    (GamePhase3.sync s gs).roundResult = (gs.field "round_result").nullish JVal.null := by
  simp only [GamePhase3.sync]
  split_ifs <;> rfl

theorem phase3_sync_votingPhase (s : GamePhase3.State) (gs : GameState) :
    (GamePhase3.sync s gs).votingPhase =
      if (gs.field "voting_phase").truthy = true then true
      else if (gs.field "round_result").truthy = true then false
      else s.votingPhase := by
  simp only [GamePhase3.sync]
  split_ifs <;> rfl

theorem phase3_sync_votingApplicants (s : GamePhase3.State) (gs : GameState) :
    (GamePhase3.sync s gs).votingApplicants =
      if (gs.field "voting_phase").truthy = true then
        (gs.field "voting_applicants").or (JVal.arr [])
      else s.votingApplicants := by
  simp only [GamePhase3.sync]
  split_ifs <;> rfl

theorem phase3_sync_voteSubmitted (s : GamePhase3.State) (gs : GameState) :
    (GamePhase3.sync s gs).voteSubmitted =
      if (gs.field "round_result").truthy = true then false else s.voteSubmitted := by
  simp only [GamePhase3.sync]
  split_ifs <;> rfl

theorem phase3_sync_submitted (s : GamePhase3.State) (gs : GameState) :
    (GamePhase3.sync s gs).submitted =
      if (gs.field "round_result").truthy = true then false else s.submitted := by
  simp only [GamePhase3.sync]
  split_ifs <;> rfl

theorem deliver_two_fst (gs : GameState) (l : GamePhase3.State) (m1 m2 : JVal) :
    (List.foldl GamePhase3.deliver (gs, l) [m1, m2]).1 =
      handleWebSocketMessage (handleWebSocketMessage gs m1) m2 := rfl

theorem deliver_two_snd (gs : GameState) (l : GamePhase3.State) (m1 m2 : JVal) :
    (List.foldl GamePhase3.deliver (gs, l) [m1, m2]).2 =
      GamePhase3.sync (GamePhase3.sync l (handleWebSocketMessage gs m1))
        (handleWebSocketMessage (handleWebSocketMessage gs m1) m2) := rfl

/-- C8, as the code behaves: in a playing phase-3 session of a joined game with
the phase intro dismissed, delivering `round_result` and then `voting_start`
with applicants `A` yields `voting_phase = true` and `voting_applicants = A`
(in the session and in the local state of `GamePhase3`), and the view selected
is the round result of the delivered payload: `voting_start` keeps
`round_result`, and `GamePhase3` tests its result branch before its voting
branches. -/
theorem voting_start_after_result_shows_result (user game player : JVal) (o : Obj)
    (ui : LocalUi) (rr vs : JVal) (A : List JVal)
    (huser : user.truthy = true) (hq : hasQuestionnaire user = true)
    (hgame : game.truthy = true) (hplayer : player.truthy = true)
    (hstatus : Obj.get o "status" = JVal.str "playing")
    (hphase : Obj.get o "phase" = JVal.num 3)
    (hdismissed : ui.phaseIntroDismissed = JVal.num 3)
    (hrr : rr.prop "type" = JVal.str "round_result")
    (hvs : vs.prop "type" = JVal.str "voting_start")
    (hA : vs.prop "applicants" = JVal.arr A) :
    (List.foldl GamePhase3.deliver (some o, ui.phase3) [rr, vs]).1.field "voting_phase"
      = JVal.bool true ∧
    (List.foldl GamePhase3.deliver (some o, ui.phase3) [rr, vs]).1.field "voting_applicants"
      = JVal.arr A ∧
    (List.foldl GamePhase3.deliver (some o, ui.phase3) [rr, vs]).2.votingPhase = true ∧
    (List.foldl GamePhase3.deliver (some o, ui.phase3) [rr, vs]).2.votingApplicants
      = JVal.arr A ∧
    App.render user game player (some o) ui.phaseIntroDismissed = Screen.GamePhase3 ∧
    App.render user game player (handleWebSocketMessage (some o) rr) ui.phaseIntroDismissed
      = Screen.GamePhase3 ∧
    selectView user game player (List.foldl GamePhase3.deliver (some o, ui.phase3) [rr, vs]).1
      { ui with phase3 := (List.foldl GamePhase3.deliver (some o, ui.phase3) [rr, vs]).2 }
      = View.GamePhase3 (PhaseView.RoundResult rr) := by
  obtain ⟨r, rfl⟩ := JVal.prop_eq_str _ _ _ hrr
  rw [deliver_two_fst, deliver_two_snd]
  have h1 : handleWebSocketMessage (some o) (JVal.obj r) =
      some (Obj.set (Obj.set o "round_result" (JVal.obj r)) "voting_phase" (JVal.bool false)) :=
    handle_round_result _ _ hrr
  have h2 : handleWebSocketMessage (handleWebSocketMessage (some o) (JVal.obj r)) vs =
      some (Obj.set (Obj.set (Obj.set (Obj.set o "round_result" (JVal.obj r))
        "voting_phase" (JVal.bool false)) "voting_phase" (JVal.bool true))
        "voting_applicants" (JVal.arr A)) := by
    rw [handle_voting_start _ _ hvs, h1, hA]
    simp [spread, JVal.or, JVal.truthy]
  have hthree : (JVal.num 3).or (JVal.num 1) = JVal.num 3 := by
    simp [JVal.or, JVal.truthy]
  have hscreen : ∀ o' : Obj, Obj.get o' "status" = JVal.str "playing" →
      Obj.get o' "phase" = JVal.num 3 →
      App.render user game player (some o') ui.phaseIntroDismissed = Screen.GamePhase3 := by
    intro o' hs hp
    rw [render_playing user game player o' _ huser hq hgame hplayer hs, hp, hthree, hdismissed]
    simp [JVal.strictEq, JVal.isNum]
  rw [h2, h1]
  refine ⟨by simp [field_some, Obj.get_set], by simp [field_some, Obj.get_set], ?_, ?_,
    hscreen o hstatus hphase, ?_, ?_⟩
  · simp [phase3_sync_votingPhase, field_some, Obj.get_set, JVal.truthy]
  · simp [phase3_sync_votingApplicants, field_some, Obj.get_set, JVal.truthy, JVal.or]
  · exact hscreen _ (by simp [Obj.get_set, hstatus]) (by simp [Obj.get_set, hphase])
  · have hs := hscreen (Obj.set (Obj.set (Obj.set (Obj.set o "round_result" (JVal.obj r))
        "voting_phase" (JVal.bool false)) "voting_phase" (JVal.bool true))
        "voting_applicants" (JVal.arr A))
      (by simp [Obj.get_set, hstatus]) (by simp [Obj.get_set, hphase])
    simp only [selectView, hs]
    simp [GamePhase3.render, phase3_sync_roundResult, field_some, Obj.get_set, JVal.truthy,
      JVal.nullish]

/-- C8, counterexample to the claim as stated: a playing phase-3 session at
round 11, intro dismissed, freshly mounted `GamePhase3` (no vote submitted),
receives `round_result` (round 11) and then `voting_start` with the applicant
`{player_id: 7, username: "X"}`. The session has `voting_phase = true` and the
applicant list, yet the view selected is the round result, not the voting
prompt. -/
theorem voting_precedence_counterexample :
    Obj.get (demoSession 3 11) "status" = JVal.str "playing" ∧
    Obj.get (demoSession 3 11) "phase" = JVal.num 3 ∧
    GamePhase3.init.voteSubmitted = false ∧
    (List.foldl GamePhase3.deliver (some (demoSession 3 11), GamePhase3.init)
      [demoResult11, demoVotingStart]).1.field "voting_phase" = JVal.bool true ∧
    (List.foldl GamePhase3.deliver (some (demoSession 3 11), GamePhase3.init)
      [demoResult11, demoVotingStart]).1.field "voting_applicants" = JVal.arr [demoApplicant] ∧
    selectView demoUser demoGame demoPlayer
      (List.foldl GamePhase3.deliver (some (demoSession 3 11), GamePhase3.init)
        [demoResult11, demoVotingStart]).1
      { demoUi (JVal.num 3) with phase3 :=
        (List.foldl GamePhase3.deliver (some (demoSession 3 11), GamePhase3.init)
          [demoResult11, demoVotingStart]).2 }
      = View.GamePhase3 (PhaseView.RoundResult demoResult11) ∧
    selectView demoUser demoGame demoPlayer
      (List.foldl GamePhase3.deliver (some (demoSession 3 11), GamePhase3.init)
        [demoResult11, demoVotingStart]).1
      { demoUi (JVal.num 3) with phase3 :=
        (List.foldl GamePhase3.deliver (some (demoSession 3 11), GamePhase3.init)
          [demoResult11, demoVotingStart]).2 }
      ≠ View.GamePhase3 (PhaseView.VotingPrompt (JVal.arr [demoApplicant])) := by
  refine ⟨rfl, rfl, rfl, rfl, rfl, rfl, ?_⟩
  intro h
  have hview : selectView demoUser demoGame demoPlayer
      (List.foldl GamePhase3.deliver (some (demoSession 3 11), GamePhase3.init)
        [demoResult11, demoVotingStart]).1
      { demoUi (JVal.num 3) with phase3 :=
        (List.foldl GamePhase3.deliver (some (demoSession 3 11), GamePhase3.init)
          [demoResult11, demoVotingStart]).2 }
      = View.GamePhase3 (PhaseView.RoundResult demoResult11) := rfl
  rw [hview] at h
  cases h

/-- Witness of `voting_start_after_result_shows_result` on the sequence of the
spec's scenario. -/
theorem voting_start_after_result_shows_result_witness :
    hasQuestionnaire demoUser = true ∧
    Obj.get (demoSession 3 11) "status" = JVal.str "playing" ∧
    demoVotingStart.prop "applicants" = JVal.arr [demoApplicant] ∧
    selectView demoUser demoGame demoPlayer
      (List.foldl GamePhase3.deliver (some (demoSession 3 11), (demoUi (JVal.num 3)).phase3)
        [demoResult11, demoVotingStart]).1
      { demoUi (JVal.num 3) with phase3 :=
        (List.foldl GamePhase3.deliver (some (demoSession 3 11), (demoUi (JVal.num 3)).phase3)
          [demoResult11, demoVotingStart]).2 }
      = View.GamePhase3 (PhaseView.RoundResult demoResult11) :=
  ⟨rfl, rfl, rfl,
   (voting_start_after_result_shows_result demoUser demoGame demoPlayer (demoSession 3 11)
      (demoUi (JVal.num 3)) demoResult11 demoVotingStart [demoApplicant]
      rfl rfl rfl rfl rfl rfl rfl rfl rfl rfl).2.2.2.2.2.2⟩

theorem phase1_sync_roundResult (s : GamePhase1.State) (gs : GameState) :
    (GamePhase1.sync s gs).roundResult = (gs.field "round_result").nullish JVal.null := by
  simp only [GamePhase1.sync]
  split_ifs <;> rfl

theorem phase1_sync_submitted (s : GamePhase1.State) (gs : GameState) :
    (GamePhase1.sync s gs).submitted =
      if (gs.field "round_result").truthy = true then false else s.submitted := by
  simp only [GamePhase1.sync]
  split_ifs <;> rfl

theorem render_phase1 (user game player : JVal) (o : Obj) (dismissed : JVal)
    (huser : user.truthy = true) (hq : hasQuestionnaire user = true)
    (hgame : game.truthy = true) (hplayer : player.truthy = true)
    (hstatus : Obj.get o "status" = JVal.str "playing")
    (hphase : Obj.get o "phase" = JVal.num 1)
    (hdismissed : dismissed = JVal.num 1) :
    App.render user game player (some o) dismissed = Screen.GamePhase1 := by
  rw [render_playing user game player o _ huser hq hgame hplayer hstatus, hphase, hdismissed]
  simp [JVal.or, JVal.truthy, JVal.strictEq, JVal.isNum]

/-- C9: full round cycle in phase 1. In a playing session at phase 1 with the
phase-1 intro dismissed (round 1 in the scenario; the round plays no part once
the intro is dismissed), `GamePhase1` is mounted, and whatever its local
`submitted` flag, delivering any `round_result` event selects the round-result
view of that payload (whose `nt_after` the view shows); delivering then
`next_round` with `current_round` 2 and `phase` 1 sets `round_result` to `null`
and selects the choice form, not the waiting card. -/
theorem phase1_round_cycle (user game player : JVal) (o : Obj) (ui : LocalUi) (rr nr : JVal)
    (huser : user.truthy = true) (hq : hasQuestionnaire user = true)
    (hgame : game.truthy = true) (hplayer : player.truthy = true)
    (hstatus : Obj.get o "status" = JVal.str "playing")
    (hphase : Obj.get o "phase" = JVal.num 1)
    (hdismissed : ui.phaseIntroDismissed = JVal.num 1)
    (hrr : rr.prop "type" = JVal.str "round_result")
    (hnr : nr.prop "type" = JVal.str "next_round")
    (hnr_round : nr.prop "current_round" = JVal.num 2)
    (hnr_phase : nr.prop "phase" = JVal.num 1) :
    App.render user game player (some o) ui.phaseIntroDismissed = Screen.GamePhase1 ∧
    selectView user game player (GamePhase1.deliver (some o, ui.phase1) rr).1
      { ui with phase1 := (GamePhase1.deliver (some o, ui.phase1) rr).2 }
      = View.GamePhase1 (PhaseView.RoundResult rr) ∧
    (List.foldl GamePhase1.deliver (some o, ui.phase1) [rr, nr]).1.field "round_result"
      = JVal.null ∧
    (List.foldl GamePhase1.deliver (some o, ui.phase1) [rr, nr]).1.field "current_round"
      = JVal.num 2 ∧
    selectView user game player (List.foldl GamePhase1.deliver (some o, ui.phase1) [rr, nr]).1
      { ui with phase1 := (List.foldl GamePhase1.deliver (some o, ui.phase1) [rr, nr]).2 }
      = View.GamePhase1 PhaseView.ChoiceSubmission := by
  obtain ⟨r, rfl⟩ := JVal.prop_eq_str _ _ _ hrr
  have h1 : handleWebSocketMessage (some o) (JVal.obj r) =
      some (Obj.set (Obj.set o "round_result" (JVal.obj r)) "voting_phase" (JVal.bool false)) :=
    handle_round_result _ _ hrr
  have hfst : (List.foldl GamePhase1.deliver (some o, ui.phase1) [JVal.obj r, nr]).1 =
      handleWebSocketMessage (handleWebSocketMessage (some o) (JVal.obj r)) nr := rfl
  have hsnd : (List.foldl GamePhase1.deliver (some o, ui.phase1) [JVal.obj r, nr]).2 =
      GamePhase1.sync (GamePhase1.sync ui.phase1 (handleWebSocketMessage (some o) (JVal.obj r)))
        (handleWebSocketMessage (handleWebSocketMessage (some o) (JVal.obj r)) nr) := rfl
  have hone : ∀ l, (GamePhase1.deliver (some o, l) (JVal.obj r)) =
      (handleWebSocketMessage (some o) (JVal.obj r),
       GamePhase1.sync l (handleWebSocketMessage (some o) (JVal.obj r))) := fun _ => rfl
  obtain ⟨o2, h2, hs2, hp2, hrr2, hcr2⟩ : ∃ o2 : Obj,
      handleWebSocketMessage (handleWebSocketMessage (some o) (JVal.obj r)) nr = some o2 ∧
      Obj.get o2 "status" = JVal.str "playing" ∧ Obj.get o2 "phase" = JVal.num 1 ∧
      Obj.get o2 "round_result" = JVal.null ∧ Obj.get o2 "current_round" = JVal.num 2 := by
    refine ⟨_, handle_next_round _ _ hnr, ?_, ?_, ?_, ?_⟩ <;>
    · rw [h1]
      by_cases hp : (nr.prop "players").truthy <;>
        simp [spreadPlayers, hp, spread, Obj.get_set, hstatus, hnr_round, hnr_phase]
  rw [hfst, hsnd, hone, h2, h1]
  refine ⟨render_phase1 user game player o _ huser hq hgame hplayer hstatus hphase hdismissed,
    ?_, by simp [field_some, hrr2], by simp [field_some, hcr2], ?_⟩
  · have hs := render_phase1 user game player
      (Obj.set (Obj.set o "round_result" (JVal.obj r)) "voting_phase" (JVal.bool false))
      ui.phaseIntroDismissed huser hq hgame hplayer
      (by simp [Obj.get_set, hstatus]) (by simp [Obj.get_set, hphase]) hdismissed
    simp only [selectView, hs]
    simp [GamePhase1.render, phase1_sync_roundResult, field_some, Obj.get_set, JVal.truthy,
      JVal.nullish]
  · have hs := render_phase1 user game player o2 ui.phaseIntroDismissed huser hq hgame hplayer
      hs2 hp2 hdismissed
    simp only [selectView, hs]
    simp [GamePhase1.render, phase1_sync_roundResult, phase1_sync_submitted, field_some,
      Obj.get_set, JVal.truthy, JVal.nullish, hrr2]

/-- Witness of `phase1_round_cycle` on the spec's scenario, from a component
whose local `submitted` flag is set; the payload shown carries `nt_after` 13. -/
theorem phase1_round_cycle_witness :
    Obj.get (demoSession 1 1) "phase" = JVal.num 1 ∧
    Obj.get (demoSession 1 1) "current_round" = JVal.num 1 ∧
    demoResult1.prop "nt_after" = JVal.num 13 ∧
    selectView demoUser demoGame demoPlayer
      (GamePhase1.deliver (some (demoSession 1 1),
        { GamePhase1.init with submitted := true }) demoResult1).1
      { demoUi (JVal.num 1) with phase1 := (GamePhase1.deliver (some (demoSession 1 1),
        { GamePhase1.init with submitted := true }) demoResult1).2 }
      = View.GamePhase1 (PhaseView.RoundResult demoResult1) ∧
    selectView demoUser demoGame demoPlayer
      (List.foldl GamePhase1.deliver (some (demoSession 1 1),
        { GamePhase1.init with submitted := true }) [demoResult1, demoNextRound2]).1
      { demoUi (JVal.num 1) with phase1 := (List.foldl GamePhase1.deliver
        (some (demoSession 1 1), { GamePhase1.init with submitted := true })
        [demoResult1, demoNextRound2]).2 }
      = View.GamePhase1 PhaseView.ChoiceSubmission :=
  have h := phase1_round_cycle demoUser demoGame demoPlayer (demoSession 1 1)
    { demoUi (JVal.num 1) with phase1 := { GamePhase1.init with submitted := true } }
    demoResult1 demoNextRound2 rfl rfl rfl rfl rfl rfl rfl rfl rfl rfl rfl
  ⟨rfl, rfl, rfl, h.2.1, h.2.2.2.2⟩

theorem JVal.strictEq_num (d : JVal) (p : ℚ) :
    d.strictEq (JVal.num p) = true ↔ d = JVal.num p := by
  cases d <;> simp [JVal.strictEq]

theorem JVal.isNum_iff (v : JVal) (n : ℚ) : v.isNum n = true ↔ v = JVal.num n := by
  cases v <;> simp [JVal.isNum]

theorem isFirstRoundOfPhase_iff (phase round : JVal) :
    isFirstRoundOfPhase phase round = true ↔
      ((phase = JVal.num 1 ∧ round = JVal.num 1) ∨ (phase = JVal.num 2 ∧ round = JVal.num 6) ∨
        (phase = JVal.num 3 ∧ round = JVal.num 11)) := by
  simp [isFirstRoundOfPhase, JVal.isNum_iff, or_assoc]

theorem selectView_playing (user game player : JVal) (o : Obj) (ui : LocalUi)
    (huser : user.truthy = true) (hq : hasQuestionnaire user = true)
    (hgame : game.truthy = true) (hplayer : player.truthy = true)
    (hstatus : Obj.get o "status" = JVal.str "playing") :
    selectView user game player (some o) ui =
      if (isFirstRoundOfPhase ((Obj.get o "phase").or (JVal.num 1))
            ((Obj.get o "current_round").or (JVal.num 1)) &&
          !(ui.phaseIntroDismissed.strictEq ((Obj.get o "phase").or (JVal.num 1)))) = true
      then View.PhaseIntro ((Obj.get o "phase").or (JVal.num 1))
      else if ((Obj.get o "phase").or (JVal.num 1)).isNum 1 = true then
        View.GamePhase1 (GamePhase1.render ui.phase1)
      else if ((Obj.get o "phase").or (JVal.num 1)).isNum 2 = true then
        View.GamePhase2 (GamePhase2.render ui.phase2)
      else if ((Obj.get o "phase").or (JVal.num 1)).isNum 3 = true then
        View.GamePhase3 (GamePhase3.render ui.phase3)
      else View.Loading := by
  simp only [selectView, render_playing user game player o _ huser hq hgame hplayer hstatus]
  split_ifs <;> rfl

/-- C10, as the code behaves: in a playing session of a joined game, let the
effective phase and round be the session's `phase` and `current_round` with a
falsy value (absent, `null`, 0) read as 1. When `phase` and `current_round` are
the first round of a phase (1 and 1, 2 and 6, 3 and 11), the view is
`PhaseIntro(phase)` if and only if the locally dismissed phase is not that
phase, so a dismissed intro of another phase does not suppress it; when the
effective pair is none of these three, `PhaseIntro` is not selected. -/
theorem phase_intro_selection (user game player : JVal) (o : Obj) (ui : LocalUi)
    (huser : user.truthy = true) (hq : hasQuestionnaire user = true)
    (hgame : game.truthy = true) (hplayer : player.truthy = true)
    (hstatus : Obj.get o "status" = JVal.str "playing") :
    (∀ p r : ℚ, (p, r) ∈ [((1 : ℚ), (1 : ℚ)), (2, 6), (3, 11)] →
      Obj.get o "phase" = JVal.num p → Obj.get o "current_round" = JVal.num r →
      (selectView user game player (some o) ui = View.PhaseIntro (JVal.num p) ↔
        ui.phaseIntroDismissed ≠ JVal.num p)) ∧
    (∀ p r q : ℚ, (p, r) ∈ [((1 : ℚ), (1 : ℚ)), (2, 6), (3, 11)] →
      Obj.get o "phase" = JVal.num p → Obj.get o "current_round" = JVal.num r →
      ui.phaseIntroDismissed = JVal.num q → q ≠ p →
      selectView user game player (some o) ui = View.PhaseIntro (JVal.num p)) ∧
    (¬ (((Obj.get o "phase").or (JVal.num 1) = JVal.num 1 ∧
          (Obj.get o "current_round").or (JVal.num 1) = JVal.num 1) ∨
        ((Obj.get o "phase").or (JVal.num 1) = JVal.num 2 ∧
          (Obj.get o "current_round").or (JVal.num 1) = JVal.num 6) ∨
        ((Obj.get o "phase").or (JVal.num 1) = JVal.num 3 ∧
          (Obj.get o "current_round").or (JVal.num 1) = JVal.num 11)) →
      ∀ x, selectView user game player (some o) ui ≠ View.PhaseIntro x) := by
  have hfirst : ∀ p r : ℚ, (p, r) ∈ [((1 : ℚ), (1 : ℚ)), (2, 6), (3, 11)] →
      Obj.get o "phase" = JVal.num p → Obj.get o "current_round" = JVal.num r →
      (selectView user game player (some o) ui = View.PhaseIntro (JVal.num p) ↔
        ui.phaseIntroDismissed ≠ JVal.num p) := by
    intro p r hpr hp hr
    rw [selectView_playing user game player o ui huser hq hgame hplayer hstatus, hp, hr]
    simp only [List.mem_cons, List.mem_singleton, List.mem_nil_iff, or_false, Prod.mk.injEq]
      at hpr
    by_cases hd : ui.phaseIntroDismissed = JVal.num p
    · rcases hpr with ⟨rfl, rfl⟩ | ⟨rfl, rfl⟩ | ⟨rfl, rfl⟩ <;>
        simp [JVal.or, JVal.truthy, hd, JVal.strictEq, JVal.isNum]
    · have hs : ui.phaseIntroDismissed.strictEq (JVal.num p) = false := by
        cases hb : ui.phaseIntroDismissed.strictEq (JVal.num p)
        · rfl
        · exact absurd ((JVal.strictEq_num _ _).1 hb) hd
      rcases hpr with ⟨rfl, rfl⟩ | ⟨rfl, rfl⟩ | ⟨rfl, rfl⟩ <;>
        simp [JVal.or, JVal.truthy, hs, hd, isFirstRoundOfPhase, JVal.isNum]
  refine ⟨hfirst, ?_, ?_⟩
  · intro p r q hpr hp hr hq' hne
    refine (hfirst p r hpr hp hr).2 ?_
    rw [hq']
    intro h
    injection h with h'
    exact hne h'
  · intro hnot x
    have hf : isFirstRoundOfPhase ((Obj.get o "phase").or (JVal.num 1))
        ((Obj.get o "current_round").or (JVal.num 1)) = false := by
      cases hb : isFirstRoundOfPhase ((Obj.get o "phase").or (JVal.num 1))
        ((Obj.get o "current_round").or (JVal.num 1))
      · rfl
      · exact absurd ((isFirstRoundOfPhase_iff _ _).1 hb) hnot
    rw [selectView_playing user game player o ui huser hq hgame hplayer hstatus, hf]
    simp only [Bool.false_and, Bool.false_eq_true, if_false]
    split_ifs <;> simp

/-- C10, counterexample to the claim as stated: the playing session with
`phase` 1 and `current_round` 0 (the round a snapshot defaults to) is not at the
first round of a phase, yet with no intro dismissed the view is
`PhaseIntro(1)`, because `App` reads the round as `current_round || 1`. -/
theorem phase_intro_other_pair_counterexample :
    Obj.get (demoSession 1 0) "status" = JVal.str "playing" ∧
    Obj.get (demoSession 1 0) "phase" = JVal.num 1 ∧
    Obj.get (demoSession 1 0) "current_round" = JVal.num 0 ∧
    selectView demoUser demoGame demoPlayer (some (demoSession 1 0)) (demoUi JVal.null)
      = View.PhaseIntro (JVal.num 1) :=
  ⟨rfl, rfl, rfl, rfl⟩

/-- Witness of `phase_intro_selection`: at phase 2, round 6, with the intro of
phase 1 dismissed, the intro of phase 2 is selected. -/
theorem phase_intro_selection_witness :
    hasQuestionnaire demoUser = true ∧
    Obj.get (demoSession 2 6) "status" = JVal.str "playing" ∧
    selectView demoUser demoGame demoPlayer (some (demoSession 2 6)) (demoUi (JVal.num 1))
      = View.PhaseIntro (JVal.num 2) :=
  ⟨rfl, rfl,
   (phase_intro_selection demoUser demoGame demoPlayer (demoSession 2 6) (demoUi (JVal.num 1))
      rfl rfl rfl rfl rfl).2.1 2 6 1 (by simp) rfl rfl rfl (by norm_num)⟩

/-! ## Lobby, results and the fallthrough of `App` -/

theorem handle_game_finished (prev : GameState) (message : JVal)
    (h : message.prop "type" = JVal.str "game_finished") :
    handleWebSocketMessage prev message =
      some (Obj.set (spread prev) "status" (JVal.str "finished")) := by
  obtain ⟨o, rfl⟩ := JVal.prop_eq_str _ _ _ h
  simp [handleWebSocketMessage, h, JVal.isStr]

theorem JVal.isStr_iff (v : JVal) (lit : String) : v.isStr lit = true ↔ v = JVal.str lit := by
  cases v <;> simp [JVal.isStr]

theorem JVal.isStr_false_of_ne (v : JVal) (lit : String) (h : v ≠ JVal.str lit) :
    v.isStr lit = false := by
  cases hb : v.isStr lit
  · rfl
  · exact absurd ((JVal.isStr_iff v lit).1 hb) h

/-- C11, as the code behaves: for a logged-in user with a completed
questionnaire, the view is Lobby whenever no game is joined (game, player or
session state absent) or the session's status is `waiting`, whatever the other
session fields and local flags; a present session of a joined game whose status
is none of `waiting`, `playing`, `finished` (an absent status included) selects
the loading placeholder. -/
theorem lobby_selection (user game player : JVal) (gameState : GameState) (ui : LocalUi)
    (huser : user.truthy = true) (hq : hasQuestionnaire user = true) :
    ((game.truthy = false ∨ player.truthy = false ∨ gameState = none ∨
        gameState.field "status" = JVal.str "waiting") →
      selectView user game player gameState ui = View.Lobby) ∧
    (game.truthy = true → player.truthy = true → gameState ≠ none →
      gameState.field "status" ≠ JVal.str "waiting" →
      gameState.field "status" ≠ JVal.str "playing" →
      gameState.field "status" ≠ JVal.str "finished" →
      selectView user game player gameState ui = View.Loading) := by
  constructor
  · intro h
    have hlobby : (!game.truthy || !player.truthy ||
        (gameState.field "status").isStr "waiting" || gameState.isNone) = true := by
      rcases h with h | h | h | h
      · simp [h]
      · simp [h]
      · simp [h]
      · simp [h, JVal.isStr]
    have hr : App.render user game player gameState ui.phaseIntroDismissed = Screen.Lobby := by
      simp only [App.render, huser, hq, hlobby]
      simp
    simp only [selectView, hr]
  · intro hgame hplayer hsome hw hp hf
    obtain ⟨o, rfl⟩ := Option.ne_none_iff_exists'.1 hsome
    have hr : App.render user game player (some o) ui.phaseIntroDismissed = Screen.Loading := by
      simp [App.render, huser, hq, hgame, hplayer, JVal.isStr_false_of_ne _ _ hw,
        JVal.isStr_false_of_ne _ _ hp, JVal.isStr_false_of_ne _ _ hf]
    simp only [selectView, hr]

/-- C11, counterexample to the claim as stated: a joined game whose session
state exists but carries no status (the state a `phase2_broadcasts` push leaves
when it arrives before any snapshot) is not sent to the Lobby; `App` falls
through to the loading placeholder. -/
theorem lobby_absent_status_counterexample :
    hasQuestionnaire demoUser = true ∧
    handleWebSocketMessage none demoPhase2Broadcasts
      = some [("phase2_broadcasts", demoPhase2Broadcasts)] ∧
    GameState.field (some [("phase2_broadcasts", demoPhase2Broadcasts)]) "status"
      = JVal.undefined ∧
    selectView demoUser demoGame demoPlayer (some [("phase2_broadcasts", demoPhase2Broadcasts)])
      (demoUi JVal.null) = View.Loading ∧
    selectView demoUser demoGame demoPlayer (some [("phase2_broadcasts", demoPhase2Broadcasts)])
      (demoUi JVal.null) ≠ View.Lobby := by
  refine ⟨rfl, rfl, rfl, rfl, ?_⟩
  intro h
  have hview : selectView demoUser demoGame demoPlayer
      (some [("phase2_broadcasts", demoPhase2Broadcasts)]) (demoUi JVal.null)
      = View.Loading := rfl
  rw [hview] at h
  cases h

/-- Witness of `lobby_selection`: a waiting session that still holds a result
and an open vote shows the Lobby. -/
theorem lobby_selection_witness :
    hasQuestionnaire demoUser = true ∧
    selectView demoUser demoGame demoPlayer
      (some (Obj.set demoBusySession "status" (JVal.str "waiting"))) (demoUi JVal.null)
      = View.Lobby :=
  ⟨rfl, (lobby_selection demoUser demoGame demoPlayer
      (some (Obj.set demoBusySession "status" (JVal.str "waiting"))) (demoUi JVal.null)
      rfl rfl).1 (Or.inr (Or.inr (Or.inr rfl)))⟩

/-- C12: for every present session state of a joined game (logged-in user with
a questionnaire, game and player present), `game_finished` sets `status` to
`finished` and leaves every other field unchanged, and the view is then
Results whatever `round_result`, `voting_phase`, `phase`, `current_round`, the
dismissed phase intro and the local component state are. -/
theorem game_finished_shows_results (user game player : JVal) (o : Obj) (ui : LocalUi)
    (message : JVal)
    (huser : user.truthy = true) (hq : hasQuestionnaire user = true)
    (hgame : game.truthy = true) (hplayer : player.truthy = true)
    (h : message.prop "type" = JVal.str "game_finished") :
    (handleWebSocketMessage (some o) message).field "status" = JVal.str "finished" ∧
    (∀ k, k ≠ "status" → (handleWebSocketMessage (some o) message).field k = Obj.get o k) ∧
    selectView user game player (handleWebSocketMessage (some o) message) ui = View.Results := by
  rw [handle_game_finished (some o) message h]
  refine ⟨by simp [field_some, Obj.get_set], ?_, ?_⟩
  · intro k hk
    simp [field_some, Obj.get_set, Ne.symm hk, spread]
  · have hr : App.render user game player
        (some (Obj.set (spread (some o)) "status" (JVal.str "finished")))
        ui.phaseIntroDismissed = Screen.Results := by
      simp [App.render, huser, hq, hgame, hplayer, GameState.field, Obj.get_set, JVal.isStr]
    simp only [selectView, hr]

/-- Witness of `game_finished_shows_results` on a session in the middle of a vote. -/
theorem game_finished_shows_results_witness :
    hasQuestionnaire demoUser = true ∧
    (handleWebSocketMessage (some demoBusySession)
      (JVal.obj [("type", JVal.str "game_finished")])).field "round_result" = demoResult11 ∧
    selectView demoUser demoGame demoPlayer
      (handleWebSocketMessage (some demoBusySession)
        (JVal.obj [("type", JVal.str "game_finished")])) (demoUi JVal.null) = View.Results :=
  have h := game_finished_shows_results demoUser demoGame demoPlayer demoBusySession
    (demoUi JVal.null) (JVal.obj [("type", JVal.str "game_finished")]) rfl rfl rfl rfl rfl
  ⟨rfl, h.2.1 "round_result" (by decide), h.2.2⟩

/-! ## Roster dedup -/

theorem uniquePlayersFrom_spec (stringOf : JVal → String) (players : List JVal)
    (hrec : ∀ p ∈ players, p.notNullish = true) (seen : List String) :
    ∃ result, uniquePlayersFrom stringOf seen players = some result ∧
      result.Sublist players ∧
      (result.map (playerKey stringOf)).Nodup ∧
      (∀ x ∈ result, playerKey stringOf x ∉ seen) ∧
      (∀ p ∈ players, playerKey stringOf p ∈ seen ∨
        playerKey stringOf p ∈ result.map (playerKey stringOf)) ∧
      (∀ x ∈ result,
        players.find? (fun p => decide (playerKey stringOf p = playerKey stringOf x))
          = some x) := by
  induction players generalizing seen with
  | nil => exact ⟨[], rfl, List.Sublist.slnil, List.nodup_nil, by simp, by simp, by simp⟩
  | cons p rest ih =>
    have hp : p.notNullish = true := hrec p (List.mem_cons_self p rest)
    have hrest : ∀ q ∈ rest, q.notNullish = true :=
      fun q hq => hrec q (List.mem_cons_of_mem p hq)
    by_cases hseen : playerKey stringOf p ∈ seen
    · obtain ⟨r, hr, hsub, hnd, hfresh, hcov, hfirst⟩ := ih hrest seen
      refine ⟨r, by simp [uniquePlayersFrom, hp, hseen, hr], hsub.cons p, hnd, hfresh, ?_, ?_⟩
      · intro q hq
        rcases List.mem_cons.1 hq with rfl | hq
        · exact Or.inl hseen
        · exact hcov q hq
      · intro x hx
        have hne : playerKey stringOf p ≠ playerKey stringOf x := by
          intro heq
          exact hfresh x hx (heq ▸ hseen)
        simp [List.find?, hne, hfirst x hx]
    · obtain ⟨r, hr, hsub, hnd, hfresh, hcov, hfirst⟩ := ih hrest (playerKey stringOf p :: seen)
      refine ⟨p :: r, by simp [uniquePlayersFrom, hp, hseen, hr], hsub.cons₂ p, ?_, ?_, ?_, ?_⟩
      · rw [List.map_cons, List.nodup_cons]
        refine ⟨?_, hnd⟩
        intro hmem
        obtain ⟨x, hx, hkx⟩ := List.mem_map.1 hmem
        exact hfresh x hx (by rw [hkx]; exact List.mem_cons_self _ _)
      · intro x hx
        rcases List.mem_cons.1 hx with rfl | hx
        · exact hseen
        · exact fun hmem => hfresh x hx (List.mem_cons_of_mem _ hmem)
      · intro q hq
        rcases List.mem_cons.1 hq with rfl | hq
        · exact Or.inr (by simp)
        · rcases hcov q hq with hc | hc
          · rcases List.mem_cons.1 hc with hc | hc
            · exact Or.inr (by rw [hc]; simp)
            · exact Or.inl hc
          · exact Or.inr (by rw [List.map_cons]; exact List.mem_cons_of_mem _ hc)
      · intro x hx
        rcases List.mem_cons.1 hx with rfl | hx
        · simp [List.find?]
        · have hne : playerKey stringOf p ≠ playerKey stringOf x := by
            intro heq
            exact hfresh x hx (by rw [← heq]; exact List.mem_cons_self _ _)
          simp [List.find?, hne, hfirst x hx]

/-- C13: dedup of the Lobby roster. For every list of player records (entries
that are neither `null` nor `undefined`), `uniquePlayers` returns a list that
is a subsequence of the input (input order kept), holds exactly one entry for
each identity key occurring in the input (the key being `u<user_id>` when
`user_id` is present, else `p<id>`), and each entry kept is the first input
entry with its key. -/
theorem uniquePlayers_dedup (stringOf : JVal → String) (players : List JVal)
    (hrec : ∀ p ∈ players, p.notNullish = true) :
    ∃ result, uniquePlayers stringOf players = some result ∧
      result.Sublist players ∧
      (result.map (playerKey stringOf)).Nodup ∧
      (∀ p ∈ players,
        List.count (playerKey stringOf p) (result.map (playerKey stringOf)) = 1) ∧
      (∀ x ∈ result,
        players.find? (fun p => decide (playerKey stringOf p = playerKey stringOf x))
          = some x) := by
  obtain ⟨r, hr, hsub, hnd, _, hcov, hfirst⟩ := uniquePlayersFrom_spec stringOf players hrec []
  refine ⟨r, hr, hsub, hnd, ?_, hfirst⟩
  intro p hp
  rcases hcov p hp with hc | hc
  · exact absurd hc (List.not_mem_nil _)
  · exact List.count_eq_one_of_mem hnd hc

/-- Witness of `uniquePlayers_dedup`: of the two entries of user 10 the first
is kept, the player without `user_id` follows. -/
theorem uniquePlayers_dedup_witness :
    uniquePlayers demoStringOf demoRoster
      = some [JVal.obj [("id", JVal.num 1), ("user_id", JVal.num 10), ("username", JVal.str "ann")],
              JVal.obj [("id", JVal.num 3), ("username", JVal.str "bob")]] ∧
    ∃ result, uniquePlayers demoStringOf demoRoster = some result ∧
      result.Sublist demoRoster ∧
      (result.map (playerKey demoStringOf)).Nodup ∧
      (∀ p ∈ demoRoster,
        List.count (playerKey demoStringOf p) (result.map (playerKey demoStringOf)) = 1) ∧
      (∀ x ∈ result,
        demoRoster.find? (fun p => decide (playerKey demoStringOf p = playerKey demoStringOf x))
          = some x) :=
  ⟨rfl, uniquePlayers_dedup demoStringOf demoRoster (by
    intro p hp
    simp only [demoRoster, List.mem_cons, List.mem_singleton, List.mem_nil_iff, or_false] at hp
    rcases hp with rfl | rfl | rfl <;> rfl)⟩

/-- C14, as the code behaves: the session stores the roster exactly as
delivered. For every `next_round` event carrying a players list and every
successful pull, the `players` field of the resulting state is the delivered
list itself, entry for entry, so entries with the same identity key remain
side by side; neither the reducer nor the snapshot removes duplicates. -/
theorem players_stored_as_delivered (prev : GameState) (message : JVal) (ps : List JVal)
    (gameFromApi : JVal) (fetchedGame : Option JVal) (g : Obj)
    (h : message.prop "type" = JVal.str "next_round")
    (hps : message.prop "players" = JVal.arr ps)
    (hgame : (if gameFromApi.truthy then some gameFromApi else fetchedGame) = some (JVal.obj g)) :
    (handleWebSocketMessage prev message).field "players" = JVal.arr ps ∧
    (loadGameState prev gameFromApi fetchedGame (some (JVal.arr ps))).field "players"
      = JVal.arr ps := by
  constructor
  · rw [handle_next_round prev message h]
    simp [field_some, spreadPlayers, hps, JVal.truthy, Obj.get_set]
  · simp only [loadGameState, hgame]
    simp [field_some, Obj.get]

/-- C14, counterexample to the claim as stated: a `next_round` event and a pull
that deliver a roster in which user 10 appears twice both leave the two
entries of user 10 in the `players` field. -/
theorem players_duplicates_counterexample :
    (handleWebSocketMessage (some demoBusySession) demoNextRoundWithRoster).field "players"
      = JVal.arr demoRoster ∧
    (loadGameState none JVal.null (some demoWaitingGame) (some (JVal.arr demoRoster))).field
      "players" = JVal.arr demoRoster ∧
    List.count "u10" (demoRoster.map (playerKey demoStringOf)) = 2 :=
  ⟨rfl, rfl, by decide⟩

/-- Witness of `players_stored_as_delivered` on the roster with a duplicate. -/
theorem players_stored_as_delivered_witness :
    demoNextRoundWithRoster.prop "players" = JVal.arr demoRoster ∧
    (handleWebSocketMessage (some demoBusySession) demoNextRoundWithRoster).field "players"
      = JVal.arr demoRoster ∧
    (loadGameState (some demoBusySession) JVal.null (some demoWaitingGame)
      (some (JVal.arr demoRoster))).field "players" = JVal.arr demoRoster :=
  have h := players_stored_as_delivered (some demoBusySession) demoNextRoundWithRoster demoRoster
    JVal.null (some demoWaitingGame) [("id", JVal.num 5), ("status", JVal.str "waiting")]
    rfl rfl rfl
  ⟨rfl, h.1, h.2⟩

/-! ## Room-code resolution -/

/-- C15: room-code resolution. For every input whose trimmed text is not empty:
if the text is a numeric identifier (its base-10 parse, rendered back as a
string, is the text) the game is joined by that number and no lookup is made;
otherwise exactly one by-code lookup is made, with the upper-cased text,
followed by the join with the `id` of the record it returns (by an alert when
the lookup is rejected); hence two non-numeric inputs with the same upper-cased
text, such as two codes that differ in letter case only, resolve alike. -/
theorem room_code_resolution (ops : StringOps) (byCode : String → Option JVal)
    (gameCode : String) (hne : ops.trim gameCode ≠ "") :
    (∀ n, ops.parseInt (ops.trim gameCode) = some n →
      ops.numberToString n = ops.trim gameCode →
      handleJoinByCode ops byCode gameCode = [JoinEffect.onJoinGame (JVal.num n)]) ∧
    ((¬ ∃ n, ops.parseInt (ops.trim gameCode) = some n ∧
        ops.numberToString n = ops.trim gameCode) →
      (∃ last, handleJoinByCode ops byCode gameCode
          = [JoinEffect.getByCode (ops.toUpperCase (ops.trim gameCode)), last] ∧
        (last = JoinEffect.alert ∨ ∃ gameId, last = JoinEffect.onJoinGame gameId)) ∧
      (∀ data, byCode (ops.toUpperCase (ops.trim gameCode)) = some data →
        data.notNullish = true →
        handleJoinByCode ops byCode gameCode
          = [JoinEffect.getByCode (ops.toUpperCase (ops.trim gameCode)),
             JoinEffect.onJoinGame (data.prop "id")]) ∧
      (∀ other, ops.trim other ≠ "" →
        (¬ ∃ n, ops.parseInt (ops.trim other) = some n ∧
          ops.numberToString n = ops.trim other) →
        ops.toUpperCase (ops.trim other) = ops.toUpperCase (ops.trim gameCode) →
        handleJoinByCode ops byCode other = handleJoinByCode ops byCode gameCode)) := by
  have hlookup : ∀ text, ops.trim text ≠ "" →
      (¬ ∃ n, ops.parseInt (ops.trim text) = some n ∧ ops.numberToString n = ops.trim text) →
      handleJoinByCode ops byCode text
        = joinByCodeLookup byCode (ops.toUpperCase (ops.trim text)) := by
    intro text htext hnum
    simp only [handleJoinByCode, htext, if_false]
    cases hparse : ops.parseInt (ops.trim text) with
    | none => rfl
    | some n =>
      have hn : ops.numberToString n ≠ ops.trim text := fun heq => hnum ⟨n, hparse, heq⟩
      simp [hn]
  refine ⟨?_, ?_⟩
  · intro n hparse hrender
    simp [handleJoinByCode, hne, hparse, hrender]
  · intro hnum
    rw [hlookup gameCode hne hnum]
    refine ⟨?_, ?_, ?_⟩
    · cases hb : byCode (ops.toUpperCase (ops.trim gameCode)) with
      | none => exact ⟨JoinEffect.alert, by simp [joinByCodeLookup, hb], Or.inl rfl⟩
      | some data =>
        cases data <;> simp [joinByCodeLookup, hb]
    · intro data hb hdata
      cases data <;> simp [joinByCodeLookup, hb, JVal.notNullish] at hdata ⊢
    · intro other hother hnum' hupper
      rw [hlookup other hother hnum', hupper]

/-- Witness of `room_code_resolution`: the input ` abc123 ` is no numeric
identifier; one lookup of `ABC123` is made and the game 5 it returns is joined,
as for the input `ABC123`. -/
theorem room_code_resolution_witness :
    demoOps.trim " abc123 " ≠ "" ∧
    handleJoinByCode demoOps demoByCode " abc123 "
      = [JoinEffect.getByCode "ABC123", JoinEffect.onJoinGame (JVal.num 5)] ∧
    handleJoinByCode demoOps demoByCode "ABC123"
      = handleJoinByCode demoOps demoByCode " abc123 " ∧
    handleJoinByCode demoOps demoByCode "42" = [JoinEffect.onJoinGame (JVal.num 42)] :=
  have hne : demoOps.trim " abc123 " ≠ "" := by decide
  have hnum : ¬ ∃ n, demoOps.parseInt (demoOps.trim " abc123 ") = some n ∧
      demoOps.numberToString n = demoOps.trim " abc123 " := by
    rintro ⟨n, hn, _⟩
    exact absurd hn (by simp [demoOps])
  have h := (room_code_resolution demoOps demoByCode " abc123 " hne).2 hnum
  ⟨hne, h.2.1 _ rfl rfl,
   h.2.2 "ABC123" (by decide) (by
      rintro ⟨n, hn, _⟩
      exact absurd hn (by simp [demoOps])) rfl,
   (room_code_resolution demoOps demoByCode "42" (by decide)).1 42 rfl rfl⟩

/-! ## Sending commands -/

theorem Obj.get_assign_of_not_mem (data base : Obj) (k : String)
    (hk : k ∉ data.map Prod.fst) :
    Obj.get (Obj.assign base data) k = Obj.get base k := by
  induction data generalizing base with
  | nil => rfl
  | cons kv rest ih =>
    simp only [List.map_cons, List.mem_cons, not_or] at hk
    have hstep : Obj.assign base (kv :: rest) = Obj.assign (Obj.set base kv.1 kv.2) rest := rfl
    rw [hstep, ih _ hk.2, Obj.get_set]
    simp [Ne.symm hk.1]

theorem Obj.get_assign_of_mem (data base : Obj) (k : String) (v : JVal)
    (hnd : (data.map Prod.fst).Nodup) (hkv : (k, v) ∈ data) :
    Obj.get (Obj.assign base data) k = v := by
  induction data generalizing base with
  | nil => exact absurd hkv (List.not_mem_nil _)
  | cons kv rest ih =>
    have hstep : Obj.assign base (kv :: rest) = Obj.assign (Obj.set base kv.1 kv.2) rest := rfl
    rw [List.map_cons, List.nodup_cons] at hnd
    rcases List.mem_cons.1 hkv with heq | hmem
    · subst heq
      rw [hstep, Obj.get_assign_of_not_mem rest _ _ hnd.1, Obj.get_set]
      simp
    · rw [hstep]
      exact ih _ hnd.2 hmem

/-- C16: `sendMessage` emits at most once and only on an open channel. When the
handle exists and its `readyState` is `OPEN`, exactly one frame is written:
the object made of the `type` field and the payload fields (each payload field
with its payload value, `type` the command type when the payload has no `type`
of its own, nothing else). In every other case nothing is written, queued or
retried; the failure is logged, once. -/
theorem sendMessage_at_most_once (ws : Option Channel) (type : String) (data : Obj) :
    (∀ channel, ws = some channel → channel.readyState = WebSocket.OPEN →
      sendMessage ws type data
        = [WsEffect.send (Obj.assign [("type", JVal.str type)] data)]) ∧
    ((ws = none ∨ ∃ channel, ws = some channel ∧ channel.readyState ≠ WebSocket.OPEN) →
      sendMessage ws type data = [WsEffect.logError]) ∧
    ((data.map Prod.fst).Nodup → ∀ k v, (k, v) ∈ data →
      Obj.get (Obj.assign [("type", JVal.str type)] data) k = v) ∧
    ("type" ∉ data.map Prod.fst →
      Obj.get (Obj.assign [("type", JVal.str type)] data) "type" = JVal.str type) ∧
    (∀ k, k ≠ "type" → k ∉ data.map Prod.fst →
      Obj.get (Obj.assign [("type", JVal.str type)] data) k = JVal.undefined) := by
  refine ⟨?_, ?_, ?_, ?_, ?_⟩
  · intro channel hws hopen
    simp [sendMessage, hws, hopen]
  · intro h
    rcases h with h | ⟨channel, h, hclosed⟩
    · simp [sendMessage, h]
    · simp [sendMessage, h, hclosed]
  · intro hnd k v hkv
    exact Obj.get_assign_of_mem data _ k v hnd hkv
  · intro hk
    rw [Obj.get_assign_of_not_mem data _ _ hk]
    simp [Obj.get]
  · intro k hk hmem
    rw [Obj.get_assign_of_not_mem data _ _ hmem]
    simp [Obj.get, Ne.symm hk]

/-- Witness of `sendMessage_at_most_once`: one `submit_choice` frame on an open
socket, a logged failure and no frame on a socket that is still connecting. -/
theorem sendMessage_at_most_once_witness :
    sendMessage (some demoOpen) "submit_choice"
        [("choice", JVal.str "organic"), ("apply_subsidy", JVal.bool false)]
      = [WsEffect.send [("type", JVal.str "submit_choice"), ("choice", JVal.str "organic"),
                        ("apply_subsidy", JVal.bool false)]] ∧
    sendMessage (some demoConnecting) "submit_choice"
        [("choice", JVal.str "organic"), ("apply_subsidy", JVal.bool false)]
      = [WsEffect.logError] :=
  ⟨(sendMessage_at_most_once (some demoOpen) "submit_choice"
      [("choice", JVal.str "organic"), ("apply_subsidy", JVal.bool false)]).1 demoOpen rfl rfl,
   (sendMessage_at_most_once (some demoConnecting) "submit_choice"
      [("choice", JVal.str "organic"), ("apply_subsidy", JVal.bool false)]).2.1
      (Or.inr ⟨demoConnecting, rfl, by decide⟩)⟩

/-- C17, the code at the failing input: with a socket that exists but is not
open (still connecting, or closed), submitting a choice in `GamePhase1`,
`GamePhase2` or `GamePhase3`, voting, or marking ready sends no command, only
logs, and yet sets the optimistic flag (`submitted`, `voteSubmitted`,
`readyClicked`): the handlers test `ws` for presence, `sendMessage` tests it
for `OPEN`. -/
theorem optimistic_flag_set_on_closed_socket :
    GamePhase1.handleSubmit { GamePhase1.init with selectedChoice := JVal.str "organic" }
        (some demoConnecting)
      = ({ GamePhase1.init with selectedChoice := JVal.str "organic", submitted := true },
         [WsEffect.logError]) ∧
    GamePhase2.handleSubmit { GamePhase2.init with selectedChoice := JVal.str "organic" }
        (some demoClosed)
      = ({ GamePhase2.init with selectedChoice := JVal.str "organic", submitted := true },
         [WsEffect.logError]) ∧
    GamePhase3.handleSubmit { GamePhase3.init with selectedChoice := JVal.str "inorganic" }
        (some demoClosed)
      = ({ GamePhase3.init with selectedChoice := JVal.str "inorganic", submitted := true },
         [WsEffect.logError]) ∧
    GamePhase3.handleVote { GamePhase3.init with votingPhase := true, selectedVote := JVal.num 7 }
        (some demoClosed) JVal.undefined
      = ({ GamePhase3.init with votingPhase := true, selectedVote := JVal.num 7,
                                 voteSubmitted := true },
         [WsEffect.logError]) ∧
    GamePhase2.handleReadyNextRound GamePhase2.init (some demoClosed)
      = ({ GamePhase2.init with readyClicked := true }, [WsEffect.logError]) ∧
    GamePhase3.handleReadyNextRound GamePhase3.init (some demoClosed)
      = ({ GamePhase3.init with readyClicked := true }, [WsEffect.logError]) :=
  ⟨rfl, rfl, rfl, rfl, rfl, rfl⟩

/-! ## `voting_start` before the game plays -/

/-- C18, as the code behaves: for every session state, whatever its status
(waiting, absent, the state itself absent), applying `voting_start` does not
fail: it yields a state object, leaves `status` as it was and sets
`voting_phase` to `true`; the reducer does not look at the status. -/
theorem voting_start_ignores_status (prev : GameState) (message : JVal)
    (h : message.prop "type" = JVal.str "voting_start") :
    (handleWebSocketMessage prev message).isSome = true ∧
    (handleWebSocketMessage prev message).field "status" = prev.field "status" ∧
    (handleWebSocketMessage prev message).field "voting_phase" = JVal.bool true := by
  rw [handle_voting_start prev message h]
  refine ⟨rfl, ?_, ?_⟩
  · simp [field_some, Obj.get_set, GameState.field_spread]
  · simp [field_some, Obj.get_set]

/-- C18, counterexample to the claim as stated: the session produced by a
snapshot with status `waiting` receives `voting_start{applicants: []}`; its
status is still `waiting`, not `playing`, and its `voting_phase` is `true`, not
`false`. -/
theorem voting_start_waiting_counterexample :
    (loadGameState none JVal.null (some demoWaitingGame) (some (JVal.arr []))).field "status"
      = JVal.str "waiting" ∧
    (handleWebSocketMessage
      (loadGameState none JVal.null (some demoWaitingGame) (some (JVal.arr [])))
      demoVotingStartEmpty).field "status" = JVal.str "waiting" ∧
    (handleWebSocketMessage
      (loadGameState none JVal.null (some demoWaitingGame) (some (JVal.arr [])))
      demoVotingStartEmpty).field "voting_phase" = JVal.bool true ∧
    (handleWebSocketMessage
      (loadGameState none JVal.null (some demoWaitingGame) (some (JVal.arr [])))
      demoVotingStartEmpty).field "voting_phase" ≠ JVal.bool false := by
  refine ⟨rfl, rfl, rfl, ?_⟩
  intro h
  have hv : (handleWebSocketMessage
      (loadGameState none JVal.null (some demoWaitingGame) (some (JVal.arr [])))
      demoVotingStartEmpty).field "voting_phase" = JVal.bool true := rfl
  rw [hv] at h
  cases h

/-- Witness of `voting_start_ignores_status` on the absent state. -/
theorem voting_start_ignores_status_witness :
    demoVotingStartEmpty.prop "type" = JVal.str "voting_start" ∧
    (handleWebSocketMessage none demoVotingStartEmpty).isSome = true ∧
    (handleWebSocketMessage none demoVotingStartEmpty).field "voting_phase" = JVal.bool true :=
  have h := voting_start_ignores_status none demoVotingStartEmpty rfl
  ⟨rfl, h.1, h.2.2⟩

/-! ## Phase and round under the reducer -/

theorem handle_other_phase_round (prev : GameState) (message : JVal)
    (h : writesPhaseRound message = false) :
    (handleWebSocketMessage prev message).field "phase" = prev.field "phase" ∧
    (handleWebSocketMessage prev message).field "current_round"
      = prev.field "current_round" := by
  simp only [writesPhaseRound, Bool.or_eq_false_iff] at h
  obtain ⟨hgs, hnr⟩ := h
  cases message with
  | null => exact ⟨rfl, rfl⟩
  | undefined => exact ⟨rfl, rfl⟩
  | bool b => exact ⟨rfl, rfl⟩
  | num q => exact ⟨rfl, rfl⟩
  | str t => exact ⟨rfl, rfl⟩
  | arr xs => exact ⟨rfl, rfl⟩
  | obj o =>
    simp only [handleWebSocketMessage, hgs, hnr, Bool.false_eq_true, if_false]
    constructor
    · split_ifs <;> simp [field_some, Obj.get_set, GameState.field_spread]
    · split_ifs <;> simp [field_some, Obj.get_set, GameState.field_spread]

theorem handle_writes_phase_round (prev : GameState) (message : JVal)
    (h : writesPhaseRound message = true) :
    (handleWebSocketMessage prev message).field "phase" = message.prop "phase" ∧
    (handleWebSocketMessage prev message).field "current_round"
      = message.prop "current_round" := by
  simp only [writesPhaseRound, Bool.or_eq_true, JVal.isStr_iff] at h
  rcases h with h | h
  · rw [handle_game_started prev message h]
    simp [field_some, Obj.get_set]
  · rw [handle_next_round prev message h]
    by_cases hp : (message.prop "players").truthy <;>
      simp [field_some, spreadPlayers, hp, Obj.get_set]

theorem payloadsMonotone_step (gs : GameState) (p r : ℚ) (m : JVal) (rest : List JVal)
    (hphase : gs.field "phase" = JVal.num p) (hround : gs.field "current_round" = JVal.num r)
    (hp : p = 1 ∨ p = 2 ∨ p = 3)
    (hmono : payloadsMonotone p r (m :: rest) = true) :
    ∃ p' r', (handleWebSocketMessage gs m).field "phase" = JVal.num p' ∧
      (handleWebSocketMessage gs m).field "current_round" = JVal.num r' ∧
      (p' = 1 ∨ p' = 2 ∨ p' = 3) ∧ p ≤ p' ∧ r ≤ r' ∧ payloadsMonotone p' r' rest = true := by
  by_cases hw : writesPhaseRound m = true
  · obtain ⟨h1, h2⟩ := handle_writes_phase_round gs m hw
    simp only [payloadsMonotone, hw, if_true] at hmono
    cases hmp : m.prop "phase" with
    | num p' =>
      cases hmr : m.prop "current_round" with
      | num r' =>
        simp only [hmp, hmr, Bool.and_eq_true, Bool.or_eq_true, decide_eq_true_eq] at hmono
        exact ⟨p', r', by rw [h1, hmp], by rw [h2, hmr], by tauto, hmono.1.1.2, hmono.1.2,
          hmono.2⟩
      | _ => simp [hmp, hmr] at hmono
    | _ => simp [hmp] at hmono
  · have hw' : writesPhaseRound m = false := by simpa using hw
    obtain ⟨h1, h2⟩ := handle_other_phase_round gs m hw'
    simp only [payloadsMonotone, hw', Bool.false_eq_true, if_false] at hmono
    exact ⟨p, r, by rw [h1, hphase], by rw [h2, hround], hp, le_refl p, le_refl r, hmono⟩

/-- C19, as the code behaves: the reducer copies `phase` and `current_round`
from `game_started` and `next_round` payloads unchecked and leaves them alone
on every other message. Hence along a sequence of reducer applications, from a
state with a phase in {1,2,3}, the phase stays in {1,2,3} and neither phase nor
round decreases from one state to the next, provided the `game_started` and
`next_round` events of the sequence carry a phase in {1,2,3} and a phase and a
round not below the ones delivered before. -/
theorem phase_round_follow_payloads (gs : GameState) (p r : ℚ) (messages : List JVal)
    (hphase : gs.field "phase" = JVal.num p) (hround : gs.field "current_round" = JVal.num r)
    (hp : p = 1 ∨ p = 2 ∨ p = 3)
    (hmono : payloadsMonotone p r messages = true) :
    ∀ pre m post, messages = pre ++ m :: post →
      ∃ p1 r1 p2 r2,
        (applyMessages gs pre).field "phase" = JVal.num p1 ∧
        (applyMessages gs pre).field "current_round" = JVal.num r1 ∧
        (applyMessages gs (pre ++ [m])).field "phase" = JVal.num p2 ∧
        (applyMessages gs (pre ++ [m])).field "current_round" = JVal.num r2 ∧
        (p1 = 1 ∨ p1 = 2 ∨ p1 = 3) ∧ (p2 = 1 ∨ p2 = 2 ∨ p2 = 3) ∧ p1 ≤ p2 ∧ r1 ≤ r2 := by
  induction messages generalizing gs p r with
  | nil =>
    intro pre m post hsplit
    exact absurd hsplit (by simp)
  | cons m0 rest ih =>
    intro pre m post hsplit
    obtain ⟨p', r', hph', hrd', hp', hle, hle', hrest⟩ :=
      payloadsMonotone_step gs p r m0 rest hphase hround hp hmono
    cases pre with
    | nil =>
      simp only [List.nil_append, List.cons.injEq] at hsplit
      obtain ⟨rfl, _⟩ := hsplit
      exact ⟨p, r, p', r', hphase, hround, hph', hrd', hp, hp', hle, hle'⟩
    | cons a pre' =>
      simp only [List.cons_append, List.cons.injEq] at hsplit
      obtain ⟨rfl, hsplit'⟩ := hsplit
      exact ih (handleWebSocketMessage gs m0) p' r' hph' hrd' hp' hrest pre' m post hsplit'

/-- C19, counterexample to the claim as stated: a session in phase 3, round 11
that receives `next_round{current_round: 1, phase: 1}` goes back to phase 1,
round 1, and one that receives `next_round{current_round: 16, phase: 4}` holds
phase 4. -/
theorem phase_round_decrease_counterexample :
    GameState.field (some demoBusySession) "phase" = JVal.num 3 ∧
    GameState.field (some demoBusySession) "current_round" = JVal.num 11 ∧
    (applyMessages (some demoBusySession) [demoNextRoundBack]).field "phase" = JVal.num 1 ∧
    (applyMessages (some demoBusySession) [demoNextRoundBack]).field "current_round"
      = JVal.num 1 ∧
    (applyMessages (some demoBusySession) [demoNextRoundPhase4]).field "phase" = JVal.num 4 ∧
    (1 : ℚ) < 3 ∧ (1 : ℚ) < 11 ∧ (4 : ℚ) ≠ 1 ∧ (4 : ℚ) ≠ 2 ∧ (4 : ℚ) ≠ 3 :=
  ⟨rfl, rfl, rfl, rfl, rfl, by norm_num, by norm_num, by norm_num, by norm_num, by norm_num⟩

/-- Witness of `phase_round_follow_payloads`: a phase-1 session receives a
result, then `next_round{current_round: 2, phase: 1}`; across the second step
phase and round go from (1, 1) to (1, 2). -/
theorem phase_round_follow_payloads_witness :
    payloadsMonotone 1 1 [demoResult1, demoNextRound2] = true ∧
    ∃ p1 r1 p2 r2,
      (applyMessages (some (demoSession 1 1)) [demoResult1]).field "phase" = JVal.num p1 ∧
      (applyMessages (some (demoSession 1 1)) [demoResult1]).field "current_round"
        = JVal.num r1 ∧
      (applyMessages (some (demoSession 1 1)) ([demoResult1] ++ [demoNextRound2])).field "phase"
        = JVal.num p2 ∧
      (applyMessages (some (demoSession 1 1)) ([demoResult1] ++ [demoNextRound2])).field
        "current_round" = JVal.num r2 ∧
      (p1 = 1 ∨ p1 = 2 ∨ p1 = 3) ∧ (p2 = 1 ∨ p2 = 2 ∨ p2 = 3) ∧ p1 ≤ p2 ∧ r1 ≤ r2 :=
  have hmono : payloadsMonotone 1 1 [demoResult1, demoNextRound2] = true := by
    simp [payloadsMonotone, writesPhaseRound, JVal.isStr, JVal.prop, Obj.get, demoResult1,
      demoNextRound2]
  ⟨hmono, phase_round_follow_payloads (some (demoSession 1 1)) 1 1
    [demoResult1, demoNextRound2] rfl rfl (Or.inl rfl) hmono [demoResult1] demoNextRound2 []
    rfl⟩

/-! ## Inbound frames -/

/-- C20: for every inbound frame whose data fails to parse as JSON, the message
handler of the connection does not invoke the registered callback and does not
throw (it logs), so the session state is unchanged; for every frame that
parses, the callback is invoked exactly once, with the parsed value, the
handler does not throw either, and the session state is the reducer's result on
that value. -/
theorem onmessage_guards_parse (parse : String → Option JVal) (callbackThrows : JVal → Bool)
    (prev : GameState) (data : String) :
    (onmessage parse callbackThrows data).threw = false ∧
    (parse data = none →
      (onmessage parse callbackThrows data).effects = [FrameEffect.logError] ∧
      (∀ message, FrameEffect.callback message ∉ (onmessage parse callbackThrows data).effects) ∧
      receiveFrame parse prev data = prev) ∧
    (∀ message, parse data = some message →
      (onmessage parse callbackThrows data).effects
        = (if callbackThrows message = true
           then [FrameEffect.callback message, FrameEffect.logError]
           else [FrameEffect.callback message]) ∧
      List.length ((onmessage parse callbackThrows data).effects.filter
        (fun e => match e with
          | FrameEffect.callback _ => true
          | FrameEffect.logError => false)) = 1 ∧
      FrameEffect.callback message ∈ (onmessage parse callbackThrows data).effects ∧
      receiveFrame parse prev data = handleWebSocketMessage prev message) := by
  refine ⟨?_, ?_, ?_⟩
  · simp only [onmessage]
    split_ifs <;> simp_all
  · intro hfail
    simp [onmessage, onmessageTry, receiveFrame, hfail]
  · intro message hok
    by_cases hthrow : callbackThrows message = true
    · simp [onmessage, onmessageTry, receiveFrame, hok, hthrow]
    · simp [onmessage, onmessageTry, receiveFrame, hok, hthrow]

/-- Witness of `onmessage_guards_parse`: a frame that does not parse is dropped
and the session keeps its state; the frame of `game_finished` reaches the
callback once. -/
theorem onmessage_guards_parse_witness :
    demoParse "not json" = none ∧
    receiveFrame demoParse (some demoBusySession) "not json" = some demoBusySession ∧
    (onmessage demoParse (fun _ => false) "\x7b\"type\":\"game_finished\"\x7d").effects
      = [FrameEffect.callback (JVal.obj [("type", JVal.str "game_finished")])] :=
  ⟨rfl,
   ((onmessage_guards_parse demoParse (fun _ => false) (some demoBusySession) "not json").2.1
      rfl).2.2,
   ((onmessage_guards_parse demoParse (fun _ => false) (some demoBusySession)
      "\x7b\"type\":\"game_finished\"\x7d").2.2
      (JVal.obj [("type", JVal.str "game_finished")]) rfl).1⟩

/-! ## The dismissed phase intro -/

/-- C21: the reset effect of `App` puts the dismissal flag back to "not
dismissed" (`null`) whenever there is no game or the session status is
`finished`; with the flag as that reset left it, a later playing session at the
first round of a phase `P` (1 and round 1, 2 and round 6, 3 and round 11)
selects `PhaseIntro(P)`, whatever had been dismissed before the reset, `P`
itself included. -/
theorem phase_intro_reset_shows_again (user game player : JVal) (o : Obj) (ui : LocalUi)
    (gameBefore : JVal) (stateBefore : GameState) (dismissedBefore : JVal) (P r : ℚ)
    (hreset : gameBefore.truthy = false ∨ stateBefore.field "status" = JVal.str "finished")
    (hflag : ui.phaseIntroDismissed
      = App.phaseIntroResetEffect gameBefore stateBefore dismissedBefore)
    (huser : user.truthy = true) (hq : hasQuestionnaire user = true)
    (hgame : game.truthy = true) (hplayer : player.truthy = true)
    (hstatus : Obj.get o "status" = JVal.str "playing")
    (hpr : (P, r) ∈ [((1 : ℚ), (1 : ℚ)), (2, 6), (3, 11)])
    (hphase : Obj.get o "phase" = JVal.num P)
    (hround : Obj.get o "current_round" = JVal.num r) :
    App.phaseIntroResetEffect gameBefore stateBefore dismissedBefore = JVal.null ∧
    selectView user game player (some o) ui = View.PhaseIntro (JVal.num P) := by
  have hnull : App.phaseIntroResetEffect gameBefore stateBefore dismissedBefore = JVal.null := by
    rcases hreset with h | h
    · simp [App.phaseIntroResetEffect, h]
    · simp [App.phaseIntroResetEffect, h, JVal.isStr]
  refine ⟨hnull, ?_⟩
  rw [selectView_playing user game player o ui huser hq hgame hplayer hstatus, hphase, hround,
    hflag, hnull]
  simp only [List.mem_cons, List.mem_singleton, List.mem_nil_iff, or_false, Prod.mk.injEq]
    at hpr
  rcases hpr with ⟨rfl, rfl⟩ | ⟨rfl, rfl⟩ | ⟨rfl, rfl⟩ <;>
    simp [JVal.or, JVal.truthy, JVal.strictEq, isFirstRoundOfPhase, JVal.isNum]

/-- Witness of `phase_intro_reset_shows_again`: the intro of phase 2 had been
dismissed, the game finished, and a later session at phase 2, round 6 shows the
intro of phase 2 again. -/
theorem phase_intro_reset_shows_again_witness :
    App.dismissPhaseIntro (some (demoSession 2 6)) = JVal.num 2 ∧
    App.phaseIntroResetEffect demoGame
      (handleWebSocketMessage (some (demoSession 2 6))
        (JVal.obj [("type", JVal.str "game_finished")]))
      (App.dismissPhaseIntro (some (demoSession 2 6))) = JVal.null ∧
    selectView demoUser demoGame demoPlayer (some (demoSession 2 6))
      (demoUi (App.phaseIntroResetEffect demoGame
        (handleWebSocketMessage (some (demoSession 2 6))
          (JVal.obj [("type", JVal.str "game_finished")]))
        (App.dismissPhaseIntro (some (demoSession 2 6)))))
      = View.PhaseIntro (JVal.num 2) :=
  have h := phase_intro_reset_shows_again demoUser demoGame demoPlayer (demoSession 2 6)
    (demoUi (App.phaseIntroResetEffect demoGame
      (handleWebSocketMessage (some (demoSession 2 6))
        (JVal.obj [("type", JVal.str "game_finished")]))
      (App.dismissPhaseIntro (some (demoSession 2 6)))))
    demoGame
    (handleWebSocketMessage (some (demoSession 2 6))
      (JVal.obj [("type", JVal.str "game_finished")]))
    (App.dismissPhaseIntro (some (demoSession 2 6))) 2 6
    (Or.inr rfl) rfl rfl rfl rfl rfl rfl (by simp) rfl rfl
  ⟨rfl, h.1, h.2⟩

/-! ## Phase boundaries -/

/-- C22, as the code behaves: the client does not derive the phase from the
round number. `game_started` and `next_round` copy `phase` and `current_round`
from the payload, each on its own, and `App` acts on the session's `phase`
field whatever `current_round` holds: a playing session with phase 1, 2 or 3
shows the intro or the component of that phase. So at the round numbers 1, 5,
6, 10, 11, 15 the client's phase is 1, 1, 2, 2, 3, 3 when the server delivers
these rounds with these phases. -/
theorem phase_comes_from_session (user game player : JVal) (o : Obj) (ui : LocalUi)
    (huser : user.truthy = true) (hq : hasQuestionnaire user = true)
    (hgame : game.truthy = true) (hplayer : player.truthy = true)
    (hstatus : Obj.get o "status" = JVal.str "playing") :
    (Obj.get o "phase" = JVal.num 1 →
      selectView user game player (some o) ui = View.PhaseIntro (JVal.num 1) ∨
      selectView user game player (some o) ui = View.GamePhase1 (GamePhase1.render ui.phase1)) ∧
    (Obj.get o "phase" = JVal.num 2 →
      selectView user game player (some o) ui = View.PhaseIntro (JVal.num 2) ∨
      selectView user game player (some o) ui = View.GamePhase2 (GamePhase2.render ui.phase2)) ∧
    (Obj.get o "phase" = JVal.num 3 →
      selectView user game player (some o) ui = View.PhaseIntro (JVal.num 3) ∨
      selectView user game player (some o) ui = View.GamePhase3 (GamePhase3.render ui.phase3)) ∧
    (∀ (prev : GameState) (message : JVal),
      (message.prop "type" = JVal.str "game_started" ∨
        message.prop "type" = JVal.str "next_round") →
      (handleWebSocketMessage prev message).field "phase" = message.prop "phase" ∧
      (handleWebSocketMessage prev message).field "current_round"
        = message.prop "current_round") ∧
    (∀ (prev : GameState) (message : JVal) (r p : ℚ),
      (r, p) ∈ [((1 : ℚ), (1 : ℚ)), (5, 1), (6, 2), (10, 2), (11, 3), (15, 3)] →
      (message.prop "type" = JVal.str "game_started" ∨
        message.prop "type" = JVal.str "next_round") →
      message.prop "current_round" = JVal.num r → message.prop "phase" = JVal.num p →
      (handleWebSocketMessage prev message).field "current_round" = JVal.num r ∧
      (handleWebSocketMessage prev message).field "phase" = JVal.num p) := by
  have hview := selectView_playing user game player o ui huser hq hgame hplayer hstatus
  have hcopy : ∀ (prev : GameState) (message : JVal),
      (message.prop "type" = JVal.str "game_started" ∨
        message.prop "type" = JVal.str "next_round") →
      (handleWebSocketMessage prev message).field "phase" = message.prop "phase" ∧
      (handleWebSocketMessage prev message).field "current_round"
        = message.prop "current_round" := by
    intro prev message hkind
    apply handle_writes_phase_round
    rcases hkind with h | h <;> simp [writesPhaseRound, h, JVal.isStr]
  refine ⟨?_, ?_, ?_, hcopy, ?_⟩
  · intro hphase
    rw [hview, hphase]
    have h1 : (JVal.num 1).or (JVal.num 1) = JVal.num 1 := by simp [JVal.or]
    rw [h1]
    by_cases hc : (isFirstRoundOfPhase (JVal.num 1) ((Obj.get o "current_round").or (JVal.num 1))
        && !(ui.phaseIntroDismissed.strictEq (JVal.num 1))) = true
    · exact Or.inl (by rw [if_pos hc])
    · exact Or.inr (by rw [if_neg hc]; simp [JVal.isNum])
  · intro hphase
    rw [hview, hphase]
    have h2 : (JVal.num 2).or (JVal.num 1) = JVal.num 2 := by simp [JVal.or, JVal.truthy]
    rw [h2]
    by_cases hc : (isFirstRoundOfPhase (JVal.num 2) ((Obj.get o "current_round").or (JVal.num 1))
        && !(ui.phaseIntroDismissed.strictEq (JVal.num 2))) = true
    · exact Or.inl (by rw [if_pos hc])
    · exact Or.inr (by rw [if_neg hc]; simp [JVal.isNum])
  · intro hphase
    rw [hview, hphase]
    have h3 : (JVal.num 3).or (JVal.num 1) = JVal.num 3 := by simp [JVal.or, JVal.truthy]
    rw [h3]
    by_cases hc : (isFirstRoundOfPhase (JVal.num 3) ((Obj.get o "current_round").or (JVal.num 1))
        && !(ui.phaseIntroDismissed.strictEq (JVal.num 3))) = true
    · exact Or.inl (by rw [if_pos hc])
    · exact Or.inr (by rw [if_neg hc]; simp [JVal.isNum])
  · intro prev message r p _ hkind hr hp
    obtain ⟨h1, h2⟩ := hcopy prev message hkind
    exact ⟨by rw [h2, hr], by rw [h1, hp]⟩

/-- C22, counterexample to the claim as stated: a phase-1 session at round 5
receives `next_round{current_round: 6, phase: 1}`. The client is then at round
6 with phase 1 and shows the phase-1 component, where the table of the claim
derives phase 2; another session at the same round 6 holds phase 2 and shows
the phase-2 component. The phase is not a function of the round. -/
theorem phase_not_derived_counterexample :
    (applyMessages (some (demoSession 1 5)) [demoNextRound6Phase1]).field "current_round"
      = JVal.num 6 ∧
    (applyMessages (some (demoSession 1 5)) [demoNextRound6Phase1]).field "phase"
      = JVal.num 1 ∧
    selectView demoUser demoGame demoPlayer
      (applyMessages (some (demoSession 1 5)) [demoNextRound6Phase1]) (demoUi (JVal.num 1))
      = View.GamePhase1 PhaseView.ChoiceSubmission ∧
    GameState.field (some (demoSession 2 6)) "current_round" = JVal.num 6 ∧
    selectView demoUser demoGame demoPlayer (some (demoSession 2 6)) (demoUi (JVal.num 2))
      = View.GamePhase2 PhaseView.ChoiceSubmission :=
  ⟨rfl, rfl, rfl, rfl, rfl⟩

/-- Witness of `phase_comes_from_session`: at round 6 with phase 1 and the
phase-1 intro dismissed the phase-1 component is shown; `next_round` events
that deliver the rounds 5, 6, 10 and 15 with the phases 1, 2, 2 and 3 leave
these phases in the session. -/
theorem phase_comes_from_session_witness :
    Obj.get (demoSession 1 6) "current_round" = JVal.num 6 ∧
    (selectView demoUser demoGame demoPlayer (some (demoSession 1 6)) (demoUi (JVal.num 1))
        = View.PhaseIntro (JVal.num 1) ∨
      selectView demoUser demoGame demoPlayer (some (demoSession 1 6)) (demoUi (JVal.num 1))
        = View.GamePhase1 (GamePhase1.render (demoUi (JVal.num 1)).phase1)) ∧
    (handleWebSocketMessage (some (demoSession 1 4)) (demoNextRoundAt 5 1)).field "phase"
      = JVal.num 1 ∧
    (handleWebSocketMessage (some (demoSession 1 5)) (demoNextRoundAt 6 2)).field "phase"
      = JVal.num 2 ∧
    (handleWebSocketMessage (some (demoSession 2 9)) (demoNextRoundAt 10 2)).field "phase"
      = JVal.num 2 ∧
    (handleWebSocketMessage (some (demoSession 3 14)) (demoNextRoundAt 15 3)).field "phase"
      = JVal.num 3 :=
  have h := phase_comes_from_session demoUser demoGame demoPlayer (demoSession 1 6)
    (demoUi (JVal.num 1)) rfl rfl rfl rfl rfl
  ⟨rfl, h.1 rfl,
   (h.2.2.2.2 (some (demoSession 1 4)) (demoNextRoundAt 5 1) 5 1 (by simp) (Or.inr rfl)
      rfl rfl).2,
   (h.2.2.2.2 (some (demoSession 1 5)) (demoNextRoundAt 6 2) 6 2 (by simp) (Or.inr rfl)
      rfl rfl).2,
   (h.2.2.2.2 (some (demoSession 2 9)) (demoNextRoundAt 10 2) 10 2 (by simp) (Or.inr rfl)
      rfl rfl).2,
   (h.2.2.2.2 (some (demoSession 3 14)) (demoNextRoundAt 15 3) 15 3 (by simp) (Or.inr rfl)
      rfl rfl).2⟩

/-! ## Voting, validation and unknown messages -/

/-- C23: `handleVote` of `GamePhase3` on an open channel. For every integer
target `t`, the abstain sentinel 0 included, whether it is the selected vote
(handler called without argument) or the override argument, exactly one
`submit_vote` command with `target_id = t` is sent and `voteSubmitted` becomes
true; when no target is selected (`null` or `undefined`) and no override is
given, nothing is sent and the state, `voteSubmitted` included, is unchanged. -/
theorem handleVote_on_open_channel (s : GamePhase3.State) (channel : Channel) (t : ℤ)
    (hopen : channel.readyState = WebSocket.OPEN) :
    (s.selectedVote = JVal.num (t : ℚ) →
      GamePhase3.handleVote s (some channel) JVal.undefined
        = ({ s with voteSubmitted := true },
           [WsEffect.send [("type", JVal.str "submit_vote"),
                           ("target_id", JVal.num (t : ℚ))]])) ∧
    GamePhase3.handleVote s (some channel) (JVal.num (t : ℚ))
      = ({ s with voteSubmitted := true },
         [WsEffect.send [("type", JVal.str "submit_vote"), ("target_id", JVal.num (t : ℚ))]]) ∧
    ((s.selectedVote = JVal.null ∨ s.selectedVote = JVal.undefined) →
      GamePhase3.handleVote s (some channel) JVal.undefined = (s, [])) := by
  have hsend : ∀ v : JVal, sendMessage (some channel) "submit_vote" [("target_id", v)]
      = [WsEffect.send [("type", JVal.str "submit_vote"), ("target_id", v)]] := by
    intro v
    simp [sendMessage, hopen, Obj.assign, Obj.set]
  refine ⟨?_, ?_, ?_⟩
  · intro hsel
    by_cases ht : (t : ℚ) = 0
    · simp [GamePhase3.handleVote, hsel, JVal.isNum, JVal.truthy, ht, hsend]
    · simp [GamePhase3.handleVote, hsel, JVal.isNum, JVal.truthy, ht, hsend]
  · by_cases ht : (t : ℚ) = 0
    · simp [GamePhase3.handleVote, JVal.isNum, JVal.truthy, ht, hsend]
    · simp [GamePhase3.handleVote, JVal.isNum, JVal.truthy, ht, hsend]
  · intro hsel
    rcases hsel with hsel | hsel <;>
      simp [GamePhase3.handleVote, hsel, JVal.isNum, JVal.truthy]

/-- Witness of `handleVote_on_open_channel`: a vote for the applicant 7 and the
abstention `handleVote(0)` on an open socket. -/
theorem handleVote_on_open_channel_witness :
    demoOpen.readyState = WebSocket.OPEN ∧
    GamePhase3.handleVote { GamePhase3.init with votingPhase := true, selectedVote := JVal.num 7 }
        (some demoOpen) JVal.undefined
      = ({ GamePhase3.init with votingPhase := true, selectedVote := JVal.num 7,
                                 voteSubmitted := true },
         [WsEffect.send [("type", JVal.str "submit_vote"), ("target_id", JVal.num 7)]]) ∧
    GamePhase3.handleVote { GamePhase3.init with votingPhase := true } (some demoOpen)
        (JVal.num 0)
      = ({ GamePhase3.init with votingPhase := true, voteSubmitted := true },
         [WsEffect.send [("type", JVal.str "submit_vote"), ("target_id", JVal.num 0)]]) ∧
    GamePhase3.handleVote { GamePhase3.init with votingPhase := true } (some demoOpen)
        JVal.undefined
      = ({ GamePhase3.init with votingPhase := true }, []) :=
  ⟨rfl,
   (handleVote_on_open_channel
      { GamePhase3.init with votingPhase := true, selectedVote := JVal.num 7 } demoOpen 7 rfl).1
      rfl,
   (handleVote_on_open_channel { GamePhase3.init with votingPhase := true } demoOpen 0 rfl).2.1,
   (handleVote_on_open_channel { GamePhase3.init with votingPhase := true } demoOpen 0 rfl).2.2
      (Or.inl rfl)⟩

theorem checkUsername_blank (ops : StringOps) (user : JVal) (name : String)
    (hname : user.prop "username" = JVal.str name) (hblank : ops.trim name = "") :
    checkUsername ops user = UsernameCheck.blank := by
  cases user <;> simp [JVal.prop] at hname
  simp [checkUsername, JVal.prop, hname, hblank]

/-- C24, as the code behaves: with a username that is empty or blank (empty
after trimming), creating a game, and joining one from the Lobby by its numeric
id, issue no request, only an alert; joining from the Lobby by an alphanumeric
room code issues the by-code lookup, which `Lobby` makes before `App` checks
the username, and then no join request, only an alert; in all these cases
game, player and session state stay as they were. A room code that is empty
after trimming leads to neither a lookup nor a join, only an alert; submitting
with no choice selected sends nothing and leaves the local state, the
`submitted` flag included, as it was. -/
theorem input_validation_rejects_locally (ops : StringOps) :
    (∀ (user : JVal) (name : String) (st : AppData) (gameId : JVal)
        (created joined gameResponse fetchedGame fetchedPlayers : Option JVal),
      user.prop "username" = JVal.str name → ops.trim name = "" →
      handleCreateGame ops user st created fetchedGame fetchedPlayers
        = (st, [RestEffect.alert]) ∧
      handleJoinGame ops user st gameId joined gameResponse fetchedGame fetchedPlayers
        = (st, [RestEffect.alert])) ∧
    (∀ (user : JVal) (name : String) (st : AppData) (byCode : String → Option JVal)
        (gameCode : String) (joined gameResponse fetchedGame fetchedPlayers : Option JVal),
      user.prop "username" = JVal.str name → ops.trim name = "" → ops.trim gameCode ≠ "" →
      ((∃ n, ops.parseInt (ops.trim gameCode) = some n ∧
          ops.numberToString n = ops.trim gameCode) →
        joinFromLobby ops user st byCode gameCode joined gameResponse fetchedGame fetchedPlayers
          = (st, [RestEffect.alert])) ∧
      ((¬ ∃ n, ops.parseInt (ops.trim gameCode) = some n ∧
          ops.numberToString n = ops.trim gameCode) →
        joinFromLobby ops user st byCode gameCode joined gameResponse fetchedGame fetchedPlayers
          = (st, [RestEffect.getByCode (ops.toUpperCase (ops.trim gameCode)),
                  RestEffect.alert]))) ∧
    (∀ (user : JVal) (st : AppData) (byCode : String → Option JVal) (gameCode : String)
        (joined gameResponse fetchedGame fetchedPlayers : Option JVal),
      ops.trim gameCode = "" →
      handleJoinByCode ops byCode gameCode = [JoinEffect.alert] ∧
      joinFromLobby ops user st byCode gameCode joined gameResponse fetchedGame fetchedPlayers
        = (st, [RestEffect.alert])) ∧
    (∀ (s1 : GamePhase1.State) (s2 : GamePhase2.State) (s3 : GamePhase3.State)
        (ws : Option Channel),
      (s1.selectedChoice = JVal.null → GamePhase1.handleSubmit s1 ws = (s1, [])) ∧
      (s2.selectedChoice = JVal.null → GamePhase2.handleSubmit s2 ws = (s2, [])) ∧
      (s3.selectedChoice = JVal.null → GamePhase3.handleSubmit s3 ws = (s3, []))) := by
  refine ⟨?_, ?_, ?_, ?_⟩
  · intro user name st gameId created joined gameResponse fetchedGame fetchedPlayers hname hblank
    have hcheck := checkUsername_blank ops user name hname hblank
    simp [handleCreateGame, handleJoinGame, hcheck]
  · intro user name st byCode gameCode joined gameResponse fetchedGame fetchedPlayers hname
      hblank hcode
    have hcheck := checkUsername_blank ops user name hname hblank
    have hjoin : ∀ gameId,
        handleJoinGame ops user st gameId joined gameResponse fetchedGame fetchedPlayers
          = (st, [RestEffect.alert]) := by
      intro gameId
      simp [handleJoinGame, hcheck]
    constructor
    · rintro ⟨n, hparse, hrender⟩
      simp [joinFromLobby, handleJoinByCode, hcode, hparse, hrender, runJoinEffects, joinStep,
        hjoin]
    · intro hnum
      have hlookup : handleJoinByCode ops byCode gameCode
          = joinByCodeLookup byCode (ops.toUpperCase (ops.trim gameCode)) := by
        simp only [handleJoinByCode, hcode, if_false]
        cases hparse : ops.parseInt (ops.trim gameCode) with
        | none => rfl
        | some n =>
          have hn : ops.numberToString n ≠ ops.trim gameCode :=
            fun heq => hnum ⟨n, hparse, heq⟩
          simp [hn]
      simp only [joinFromLobby, hlookup]
      cases hb : byCode (ops.toUpperCase (ops.trim gameCode)) with
      | none => simp [joinByCodeLookup, hb, runJoinEffects, joinStep]
      | some data =>
        cases data <;> simp [joinByCodeLookup, hb, runJoinEffects, joinStep, hjoin]
  · intro user st byCode gameCode joined gameResponse fetchedGame fetchedPlayers hblank
    have hh : handleJoinByCode ops byCode gameCode = [JoinEffect.alert] := by
      simp [handleJoinByCode, hblank]
    exact ⟨hh, by simp [joinFromLobby, hh, runJoinEffects, joinStep]⟩
  · intro s1 s2 s3 ws
    refine ⟨?_, ?_, ?_⟩
    · intro h
      simp [GamePhase1.handleSubmit, h, JVal.truthy]
    · intro h
      simp [GamePhase2.handleSubmit, h, JVal.truthy]
    · intro h
      simp [GamePhase3.handleSubmit, h, JVal.truthy]

/-- C24, counterexample to the claim as stated: a user whose nickname is blank
joins from the Lobby with the room code `abc123`. The lookup
`GET /games/by-code/ABC123` goes out before the username is rejected; no join
request follows and game, player and session state stay unset. -/
theorem blank_username_lookup_counterexample :
    demoBlankUser.prop "username" = JVal.str "   " ∧
    demoOps.trim "   " = "" ∧
    joinFromLobby demoOps demoBlankUser demoNoGame demoByCode "abc123" (some demoPlayer)
        (some demoWaitingGame) (some demoWaitingGame) (some (JVal.arr []))
      = (demoNoGame, [RestEffect.getByCode "ABC123", RestEffect.alert]) :=
  ⟨rfl, by decide, rfl⟩

/-- Witness of `input_validation_rejects_locally`: a blank nickname on create,
on a join by the number 42 and on a join by the code `abc123`, a blank room
code, and a submit without a choice on an open socket. -/
theorem input_validation_rejects_locally_witness :
    demoOps.trim "   " = "" ∧
    handleCreateGame demoOps demoBlankUser demoNoGame (some demoWaitingGame)
        (some demoWaitingGame) (some (JVal.arr [])) = (demoNoGame, [RestEffect.alert]) ∧
    joinFromLobby demoOps demoBlankUser demoNoGame demoByCode "42" (some demoPlayer)
        (some demoWaitingGame) (some demoWaitingGame) (some (JVal.arr []))
      = (demoNoGame, [RestEffect.alert]) ∧
    joinFromLobby demoOps demoBlankUser demoNoGame demoByCode "abc123" (some demoPlayer)
        (some demoWaitingGame) (some demoWaitingGame) (some (JVal.arr []))
      = (demoNoGame, [RestEffect.getByCode (demoOps.toUpperCase (demoOps.trim "abc123")),
                      RestEffect.alert]) ∧
    handleJoinByCode demoOps demoByCode "   " = [JoinEffect.alert] ∧
    GamePhase1.handleSubmit GamePhase1.init (some demoOpen) = (GamePhase1.init, []) :=
  have h := input_validation_rejects_locally demoOps
  have hcreate := h.1 demoBlankUser "   " demoNoGame (JVal.num 5) (some demoWaitingGame)
    (some demoPlayer) (some demoWaitingGame) (some demoWaitingGame) (some (JVal.arr []))
    rfl (by decide)
  have hnumeric := h.2.1 demoBlankUser "   " demoNoGame demoByCode "42" (some demoPlayer)
    (some demoWaitingGame) (some demoWaitingGame) (some (JVal.arr [])) rfl (by decide)
    (by decide)
  have hcode := h.2.1 demoBlankUser "   " demoNoGame demoByCode "abc123" (some demoPlayer)
    (some demoWaitingGame) (some demoWaitingGame) (some (JVal.arr [])) rfl (by decide)
    (by decide)
  ⟨by decide, hcreate.1, hnumeric.1 ⟨42, rfl, rfl⟩,
   hcode.2 (by
      rintro ⟨n, hn, _⟩
      exact absurd hn (by simp [demoOps])),
   (h.2.2.1 demoBlankUser demoNoGame demoByCode "   " (some demoPlayer)
      (some demoWaitingGame) (some demoWaitingGame) (some (JVal.arr [])) (by decide)).1,
   (h.2.2.2 GamePhase1.init GamePhase2.init GamePhase3.init (some demoOpen)).1 rfl⟩

/-- C25: for every session state and every inbound message whose `type` is
none of the nine recognised kinds, a message without `type` in particular, the
reducer returns the session state unchanged. -/
theorem unknown_message_ignored (prev : GameState) (message : JVal) :
    ((∀ kind ∈ ["game_started", "round_result", "next_round", "phase2_broadcasts",
                "subsidy_applied", "subsidy_caught", "vote_result", "voting_start",
                "game_finished"], message.prop "type" ≠ JVal.str kind) →
      handleWebSocketMessage prev message = prev) ∧
    (message.prop "type" = JVal.undefined → handleWebSocketMessage prev message = prev) := by
  have hmain : (∀ kind ∈ ["game_started", "round_result", "next_round", "phase2_broadcasts",
                "subsidy_applied", "subsidy_caught", "vote_result", "voting_start",
                "game_finished"], message.prop "type" ≠ JVal.str kind) →
      handleWebSocketMessage prev message = prev := by
    intro h
    have hk : ∀ kind ∈ ["game_started", "round_result", "next_round", "phase2_broadcasts",
                "subsidy_applied", "subsidy_caught", "vote_result", "voting_start",
                "game_finished"], (message.prop "type").isStr kind = false :=
      fun kind hmem => JVal.isStr_false_of_ne _ _ (h kind hmem)
    cases message with
    | null => rfl
    | undefined => rfl
    | bool b => rfl
    | num q => rfl
    | str t => rfl
    | arr xs => rfl
    | obj o =>
      simp only [handleWebSocketMessage, hk "game_started" (by simp),
        hk "round_result" (by simp), hk "next_round" (by simp),
        hk "phase2_broadcasts" (by simp), hk "subsidy_applied" (by simp),
        hk "subsidy_caught" (by simp), hk "vote_result" (by simp),
        hk "voting_start" (by simp), hk "game_finished" (by simp),
        Bool.false_eq_true, if_false]
  refine ⟨hmain, ?_⟩
  intro hnone
  apply hmain
  intro kind _ heq
  rw [hnone] at heq
  cases heq

/-- Witness of `unknown_message_ignored`: a `player_joined` message leaves a
session in the middle of a vote as it is. -/
theorem unknown_message_ignored_witness :
    demoUnknownMessage.prop "type" = JVal.str "player_joined" ∧
    handleWebSocketMessage (some demoBusySession) demoUnknownMessage = some demoBusySession :=
  ⟨rfl, (unknown_message_ignored (some demoBusySession) demoUnknownMessage).1 (by
    intro kind hmem heq
    have hkind : JVal.str "player_joined" = JVal.str kind := heq
    injection hkind with hk
    subst hk
    simp at hmem)⟩

/-! ## The local voting flag of `GamePhase3` -/

theorem render_phase3 (user game player : JVal) (o : Obj) (dismissed : JVal)
    (huser : user.truthy = true) (hq : hasQuestionnaire user = true)
    (hgame : game.truthy = true) (hplayer : player.truthy = true)
    (hstatus : Obj.get o "status" = JVal.str "playing")
    (hphase : Obj.get o "phase" = JVal.num 3)
    (hdismissed : dismissed = JVal.num 3) :
    App.render user game player (some o) dismissed = Screen.GamePhase3 := by
  rw [render_playing user game player o _ huser hq hgame hplayer hstatus, hphase, hdismissed]
  simp [JVal.or, JVal.truthy, JVal.strictEq, JVal.isNum]

/-- C26: the local voting flag of `GamePhase3` does not mirror the session. The
sync step sets local `votingPhase` to true whenever the session's
`voting_phase` is truthy, sets it to false only when a `round_result` is
present, and otherwise keeps it. So in a playing phase-3 session (intro
dismissed, `GamePhase3` mounted), after `voting_start` and then a `next_round`
that stays in phase 3, the session has `voting_phase = false` and
`round_result = null`, yet local `votingPhase` is still true and the view is
the voting prompt or the voting wait card, not the choice form. -/
theorem local_voting_flag_outlives_session (user game player : JVal) (o : Obj)
    (ui : LocalUi) (vs nr : JVal)
    (huser : user.truthy = true) (hq : hasQuestionnaire user = true)
    (hgame : game.truthy = true) (hplayer : player.truthy = true)
    (hstatus : Obj.get o "status" = JVal.str "playing")
    (hphase : Obj.get o "phase" = JVal.num 3)
    (hdismissed : ui.phaseIntroDismissed = JVal.num 3)
    (hvs : vs.prop "type" = JVal.str "voting_start")
    (hnr : nr.prop "type" = JVal.str "next_round")
    (hnr_phase : nr.prop "phase" = JVal.num 3) :
    (∀ (s : GamePhase3.State) (gs : GameState), (GamePhase3.sync s gs).votingPhase =
      if (gs.field "voting_phase").truthy = true then true
      else if (gs.field "round_result").truthy = true then false
      else s.votingPhase) ∧
    (List.foldl GamePhase3.deliver (some o, ui.phase3) [vs, nr]).1.field "voting_phase"
      = JVal.bool false ∧
    (List.foldl GamePhase3.deliver (some o, ui.phase3) [vs, nr]).1.field "round_result"
      = JVal.null ∧
    (List.foldl GamePhase3.deliver (some o, ui.phase3) [vs, nr]).2.votingPhase = true ∧
    App.render user game player (some o) ui.phaseIntroDismissed = Screen.GamePhase3 ∧
    App.render user game player (handleWebSocketMessage (some o) vs) ui.phaseIntroDismissed
      = Screen.GamePhase3 ∧
    (selectView user game player (List.foldl GamePhase3.deliver (some o, ui.phase3) [vs, nr]).1
        { ui with phase3 := (List.foldl GamePhase3.deliver (some o, ui.phase3) [vs, nr]).2 }
        = View.GamePhase3 (PhaseView.VotingPrompt
            (List.foldl GamePhase3.deliver (some o, ui.phase3) [vs, nr]).2.votingApplicants) ∨
      selectView user game player (List.foldl GamePhase3.deliver (some o, ui.phase3) [vs, nr]).1
        { ui with phase3 := (List.foldl GamePhase3.deliver (some o, ui.phase3) [vs, nr]).2 }
        = View.GamePhase3 PhaseView.VotingWait) ∧
    selectView user game player (List.foldl GamePhase3.deliver (some o, ui.phase3) [vs, nr]).1
      { ui with phase3 := (List.foldl GamePhase3.deliver (some o, ui.phase3) [vs, nr]).2 }
      ≠ View.GamePhase3 PhaseView.ChoiceSubmission := by
  rw [deliver_two_fst, deliver_two_snd]
  have h1 : handleWebSocketMessage (some o) vs =
      some (Obj.set (Obj.set o "voting_phase" (JVal.bool true))
        "voting_applicants" ((vs.prop "applicants").or (JVal.arr []))) :=
    handle_voting_start _ _ hvs
  obtain ⟨o2, h2, hs2, hp2, hrr2, hvp2⟩ : ∃ o2 : Obj,
      handleWebSocketMessage (handleWebSocketMessage (some o) vs) nr = some o2 ∧
      Obj.get o2 "status" = JVal.str "playing" ∧ Obj.get o2 "phase" = JVal.num 3 ∧
      Obj.get o2 "round_result" = JVal.null ∧ Obj.get o2 "voting_phase" = JVal.bool false := by
    refine ⟨_, handle_next_round _ _ hnr, ?_, ?_, ?_, ?_⟩ <;>
    · rw [h1]
      by_cases hp : (nr.prop "players").truthy <;>
        simp [spreadPlayers, hp, spread, Obj.get_set, hstatus, hnr_phase]
  have hlocal : (GamePhase3.sync (GamePhase3.sync ui.phase3 (handleWebSocketMessage (some o) vs))
      (some o2)).votingPhase = true := by
    rw [phase3_sync_votingPhase, phase3_sync_votingPhase, h1]
    simp [field_some, Obj.get_set, JVal.truthy, hrr2, hvp2]
  have hres : (GamePhase3.sync (GamePhase3.sync ui.phase3 (handleWebSocketMessage (some o) vs))
      (some o2)).roundResult = JVal.null := by
    rw [phase3_sync_roundResult]
    simp [field_some, hrr2, JVal.nullish]
  have hview : selectView user game player (some o2)
      { ui with phase3 := (GamePhase3.sync
          (GamePhase3.sync ui.phase3 (handleWebSocketMessage (some o) vs)) (some o2)) }
      = View.GamePhase3 (GamePhase3.render (GamePhase3.sync
          (GamePhase3.sync ui.phase3 (handleWebSocketMessage (some o) vs)) (some o2))) := by
    have hs := render_phase3 user game player o2 ui.phaseIntroDismissed huser hq hgame hplayer
      hs2 hp2 hdismissed
    simp only [selectView, hs]
  rw [h2]
  refine ⟨phase3_sync_votingPhase, by simp [field_some, hvp2], by simp [field_some, hrr2],
    hlocal, render_phase3 user game player o _ huser hq hgame hplayer hstatus hphase hdismissed,
    ?_, ?_, ?_⟩
  · rw [h1]
    exact render_phase3 user game player _ _ huser hq hgame hplayer
      (by simp [Obj.get_set, hstatus]) (by simp [Obj.get_set, hphase]) hdismissed
  · rw [hview]
    cases hsub : (GamePhase3.sync (GamePhase3.sync ui.phase3
        (handleWebSocketMessage (some o) vs)) (some o2)).voteSubmitted
    · left
      simp [GamePhase3.render, hres, hlocal, hsub, JVal.truthy]
    · right
      simp [GamePhase3.render, hres, hlocal, hsub, JVal.truthy]
  · rw [hview]
    cases hsub : (GamePhase3.sync (GamePhase3.sync ui.phase3
        (handleWebSocketMessage (some o) vs)) (some o2)).voteSubmitted <;>
      simp [GamePhase3.render, hres, hlocal, hsub, JVal.truthy]

/-- Witness of `local_voting_flag_outlives_session`: a phase-3 session at round
11 receives `voting_start` with one applicant and then
`next_round{current_round: 12, phase: 3}`; the session's `voting_phase` is
false, the view is still the voting prompt for that applicant. -/
theorem local_voting_flag_outlives_session_witness :
    Obj.get (demoSession 3 11) "phase" = JVal.num 3 ∧
    (List.foldl GamePhase3.deliver (some (demoSession 3 11), (demoUi (JVal.num 3)).phase3)
      [demoVotingStart, demoNextRound12]).1.field "voting_phase" = JVal.bool false ∧
    (List.foldl GamePhase3.deliver (some (demoSession 3 11), (demoUi (JVal.num 3)).phase3)
      [demoVotingStart, demoNextRound12]).2.votingPhase = true ∧
    selectView demoUser demoGame demoPlayer
      (List.foldl GamePhase3.deliver (some (demoSession 3 11), (demoUi (JVal.num 3)).phase3)
        [demoVotingStart, demoNextRound12]).1
      { demoUi (JVal.num 3) with phase3 :=
        (List.foldl GamePhase3.deliver (some (demoSession 3 11), (demoUi (JVal.num 3)).phase3)
          [demoVotingStart, demoNextRound12]).2 }
      = View.GamePhase3 (PhaseView.VotingPrompt (JVal.arr [demoApplicant])) ∧
    selectView demoUser demoGame demoPlayer
      (List.foldl GamePhase3.deliver (some (demoSession 3 11), (demoUi (JVal.num 3)).phase3)
        [demoVotingStart, demoNextRound12]).1
      { demoUi (JVal.num 3) with phase3 :=
        (List.foldl GamePhase3.deliver (some (demoSession 3 11), (demoUi (JVal.num 3)).phase3)
          [demoVotingStart, demoNextRound12]).2 }
      ≠ View.GamePhase3 PhaseView.ChoiceSubmission :=
  have h := local_voting_flag_outlives_session demoUser demoGame demoPlayer (demoSession 3 11)
    (demoUi (JVal.num 3)) demoVotingStart demoNextRound12 rfl rfl rfl rfl rfl rfl rfl rfl rfl rfl
  ⟨rfl, h.2.1, h.2.2.2.1, rfl, h.2.2.2.2.2.2.2⟩

end GameClient
